import Mathlib

/-!
# Streaming proposal controller (`cli/lib/proposal.go`)

A shallow embedding of the `handleStream` closure created by `Propose`, the
callback that the transport invokes once per stream chunk.  The closure's
captured variables become the fields of `Session`; the collaborators whose
code lives outside the file (`json.Unmarshal`, `SetPlanState`,
`appendConversation`, `receiveFileToken`, `GetMarkdown`, the two phase-marker
constants) are the fields of `Env`.  Channel and pointer behaviour of Go that
the closure relies on is made explicit: closing the closed `done` channel and
dereferencing a nil `desc` are run-time panics, and a send on the full
`queue` channel blocks.

The calls of `handleStream` are taken one after the other, in arrival order.
The render ticker, the key watcher and the select loop of `Propose` run in
other goroutines and are not part of the embedding; neither are wall-clock
effects (the 700ms floor, timestamps) and the token counts.
-/

namespace Plandex

/-- The name returned by `state.Current()`; the switch of `handleStream`
compares it with five distinct constants of package `shared`. -/
inductive StateName
  | STATE_REPLYING
  | STATE_REVISING
  | STATE_FINISHED
  | STATE_DESCRIBING
  | STATE_BUILDING
  | STATE_OTHER
  deriving DecidableEq, Repr

/-- The fields of `shared.PlanDescription` read by `Propose`. -/
structure PlanDescription where
  MadePlan : Bool
  Files : List String
  ResponseTimestamp : String
  deriving DecidableEq, Repr

/-- The fields of the plan state written by `Propose`. -/
structure PlanState where
  ProposalId : String
  RootId : String
  Description : Option PlanDescription
  deriving DecidableEq, Repr

/-- The fields of `types.OnStreamPlanParams`; `State` stands for the value of
`params.State.Current()`, `Err` for `params.Err` (`none` is a nil error). -/
structure OnStreamPlanParams where
  State : StateName
  Err : Option String
  Content : String
  deriving DecidableEq, Repr

/-- A Go `map[string]V` as an association list: the first binding of a key
is its value, and any list stands for a map. -/
abbrev GoMap (V : Type) := List (String × V)

/-- Go `len(m)`: the number of distinct keys. -/
def mapLen {V : Type} (m : GoMap V) : Nat := (m.map Prod.fst).dedup.length

/-- Go `_, ok := m[k]`: whether the key is present. -/
def mapHas {V : Type} (m : GoMap V) (k : String) : Bool := (m.lookup k).isSome

/-- Go `m[k]` on a `map[string]int`: the zero value when the key is absent. -/
def mapGetInt (m : GoMap Int) (k : String) : Int := (m.lookup k).getD 0

/-- The argument of `receiveFileToken`; the three maps are shared with the
caller, so the decoder's writes are seen by `handleStream`. -/
structure receiveFileChunkParams where
  Content : String
  JsonBuffers : GoMap String
  NumStreamedTokensByPath : GoMap Int
  FinishedByPath : GoMap Bool
  deriving DecidableEq, Repr

/-- The fields of `types.AppendConversationParams` that depend on the stream
(the prompt, its timestamp and the two token counts are left out). -/
structure AppendConversationParams where
  ResponseTimestamp : String
  Reply : String
  PlanState : PlanState
  deriving DecidableEq, Repr

/-- What `handleStream` writes to the terminal, one constructor per call or
print statement of the source. -/
inductive TermOp
  | BackToMain
  | spinnerStop
  | ClearCurrentLine
  | alternateScreen
  | endReply (rendered : String)
  | buildingHeader
  | fileLine (path : String)
  | blankLine
  | hotkeys
  | MoveUpLines (n : Nat)
  | fileStatus (path : String) (tokens : Int) (finished : Bool)
  | appendConvoFailed (msg : String)
  deriving DecidableEq, Repr

/-- The collaborators of `handleStream` whose code is outside the file.

* `jsonUnmarshal content desc` is `json.Unmarshal([]byte(content), &desc)`:
  the new value of `desc` and the error.
* `SetPlanState n ps` is the error of the call number `n` (from 0) of
  `SetPlanState(ps, ts)` in this session.
* `receiveFileToken p` is the decoder: the maps after the call, `wroteFile`
  and the error. -/
structure Env where
  STREAM_DESCRIPTION_PHASE : String
  STREAM_BUILD_PHASE : String
  jsonUnmarshal : String → Option PlanDescription → Option PlanDescription × Option String
  SetPlanState : Nat → PlanState → Option String
  appendConversation : AppendConversationParams → Option String
  receiveFileToken : receiveFileChunkParams → receiveFileChunkParams × Bool × Option String
  GetMarkdown : String → String

/-- The variables captured by `handleStream`, followed by what its calls do
to the outside: the `done` channel, the key-watcher context, stderr, the
terminal, the two persistence collaborators, and whether the goroutine has
panicked or is blocked on a channel send.  `descShared` records that
`planState.Description` and `desc` are the same pointer. -/
structure Session where
  reply : String
  termState : String
  proposalId : String
  replyStarted : Bool
  terminalHasPendingUpdate : Bool
  desc : Option PlanDescription
  state : Option StateName
  streamFinished : Bool
  filesFinished : Bool
  finishedByPath : GoMap Bool
  jsonBuffers : GoMap String
  numStreamedTokensByPath : GoMap Int
  replyTokenCounter : List String
  rootId : String
  planState : PlanState
  descShared : Bool
  running : Bool
  queue : List OnStreamPlanParams
  doneClosed : Bool
  keywatchCancelled : Bool
  errors : List String
  term : List TermOp
  setPlanStateCalls : List PlanState
  persisted : List PlanState
  appendConversationCalls : List AppendConversationParams
  panicked : Bool
  blocked : Bool
  deriving DecidableEq, Repr

/-- The session at the point where `handleStream` is handed to `Api.Propose`:
`planState` is what `GetPlanState` returned. -/
def init (planState : PlanState) : Session :=
  { reply := "", termState := "", proposalId := "", replyStarted := false,
    terminalHasPendingUpdate := false, desc := none, state := none,
    streamFinished := false, filesFinished := false, finishedByPath := [],
    jsonBuffers := [], numStreamedTokensByPath := [], replyTokenCounter := [],
    rootId := planState.RootId, planState := planState, descShared := false,
    running := false, queue := [], doneClosed := false, keywatchCancelled := false,
    errors := [], term := [], setPlanStateCalls := [], persisted := [],
    appendConversationCalls := [], panicked := false, blocked := false }

/-- Go `close(done)`: closing a closed channel panics. -/
def closeDone (s : Session) : Session :=
  if s.doneClosed then { s with panicked := true } else { s with doneClosed := true }

/-- The closure `onError`: `BackToMain()`, the message on stderr,
`cancelKeywatch()`, `close(done)`. -/
def onError (s : Session) (err : String) : Session :=
  closeDone { s with term := s.term ++ [TermOp.BackToMain],
                     errors := s.errors ++ [err],
                     keywatchCancelled := true }

/-- The call `SetPlanState(planState, shared.StringTs())` and its error. -/
def callSetPlanState (env : Env) (s : Session) : Session × Option String :=
  let r := env.SetPlanState s.setPlanStateCalls.length s.planState
  ({ s with setPlanStateCalls := s.setPlanStateCalls ++ [s.planState],
            persisted := if r.isNone then s.persisted ++ [s.planState] else s.persisted }, r)

/-- The closure `appendConvo`, called with `desc` pointing to `d`. -/
def appendConvo (env : Env) (s : Session) (d : PlanDescription) : Session :=
  let params : AppendConversationParams :=
    { ResponseTimestamp := d.ResponseTimestamp, Reply := s.reply, PlanState := s.planState }
  let s := { s with appendConversationCalls := s.appendConversationCalls ++ [params] }
  match env.appendConversation params with
  | some e => { s with term := s.term ++ [TermOp.appendConvoFailed e] }
  | none => s

/-- The closures `printReply` and `endReply`. -/
def endReply (env : Env) (s : Session) : Session :=
  let mdFull := env.GetMarkdown s.reply
  { s with termState := mdFull, term := s.term ++ [TermOp.endReply mdFull] }

/-- The statement `json.Unmarshal([]byte(content), &desc)`.  A non-nil `desc`
is decoded in place, which `planState.Description` sees when it is the same
pointer; a nil `desc` gets a fresh struct, and a `desc` set to nil leaves
the old struct to `planState.Description` alone. -/
def unmarshalDesc (env : Env) (s : Session) (content : String) : Session × Option String :=
  let r := env.jsonUnmarshal content s.desc
  match s.desc, r.1 with
  | some _, some d =>
    ({ s with desc := some d,
              planState := if s.descShared then { s.planState with Description := some d }
                           else s.planState }, r.2)
  | some _, none => ({ s with desc := none, descShared := false }, r.2)
  | none, some d => ({ s with desc := some d, descShared := false }, r.2)
  | none, none => (s, r.2)

/-- The `STATE_DESCRIBING` case for a content that is not the phase marker. -/
def describePayload (env : Env) (s : Session) (content : String) : Session :=
  let r := unmarshalDesc env s content
  let s := r.1
  match r.2 with
  | some e => onError s ("error parsing plan description: " ++ e)
  | none =>
    let s := { s with planState := { s.planState with Description := s.desc },
                      descShared := true }
    match s.desc with
    | none => { s with panicked := true }
    | some d =>
      let s := appendConvo env s d
      let r := callSetPlanState env s
      let s := r.1
      match r.2 with
      | some e => onError s ("failed to update plan state: " ++ e)
      | none =>
        if d.MadePlan && decide (d.Files.length > 0) then
          let lines := d.Files.map TermOp.fileLine
          { s with term := s.term ++ [TermOp.spinnerStop, TermOp.buildingHeader] ++ lines
                             ++ [TermOp.blankLine, TermOp.hotkeys] }
        else
          { s with filesFinished := true }

/-- The argument handed to the decoder by the `STATE_BUILDING` case. -/
def decoderInput (s : Session) (content : String) : receiveFileChunkParams :=
  { Content := content, JsonBuffers := s.jsonBuffers,
    NumStreamedTokensByPath := s.numStreamedTokensByPath,
    FinishedByPath := s.finishedByPath }

/-- The `STATE_BUILDING` case for a content that is not the phase marker. -/
def buildPayload (env : Env) (s : Session) (content : String) : Session :=
  let r := env.receiveFileToken (decoderInput s content)
  let wroteFile := r.2.1
  let s := { s with jsonBuffers := r.1.JsonBuffers,
                    numStreamedTokensByPath := r.1.NumStreamedTokensByPath,
                    finishedByPath := r.1.FinishedByPath }
  match r.2.2 with
  | some e => onError s e
  | none =>
    match s.desc with
    | none => { s with panicked := true }
    | some d =>
      let files := d.Files
      let rows := files.map (fun filePath =>
        TermOp.fileStatus filePath (mapGetInt s.numStreamedTokensByPath filePath)
          (mapHas s.finishedByPath filePath))
      let up := TermOp.MoveUpLines (if s.filesFinished then files.length else files.length + 4)
      let s := { s with term := s.term ++ [up] ++ rows }
      let s :=
        if wroteFile then
          if mapLen s.finishedByPath = files.length then
            let s := { s with filesFinished := true }
            if s.streamFinished then closeDone s else s
          else s
        else s
      if !s.filesFinished then
        { s with term := s.term ++ [TermOp.blankLine, TermOp.hotkeys] }
      else s

/-- Lines 197 to 208: the first chunk after the identifier stops the spinner
and switches to the alternate screen (the 700ms floor is a sleep). -/
def revealReply (s : Session) : Session :=
  if !s.replyStarted then
    { s with term := s.term ++
               [TermOp.spinnerStop, TermOp.ClearCurrentLine, TermOp.alternateScreen],
             replyStarted := true }
  else s

/-- The body of `handleStream` after the `running` check: lines 161 to 319. -/
def handleChunk (env : Env) (s : Session) (params : OnStreamPlanParams) : Session :=
  let s := { s with state := some params.State }
  let content := params.Content
  match params.Err with
  | some err => onError s err
  | none =>
    if s.proposalId = "" then
      if content = "" then
        onError s "proposal id not sent in first chunk"
      else
        let proposalId := content
        let rootId := if s.rootId = "" then proposalId else s.rootId
        let s := { s with proposalId := proposalId, rootId := rootId,
                          planState := { s.planState with ProposalId := proposalId,
                                                          RootId := rootId } }
        let r := callSetPlanState env s
        let s := r.1
        match r.2 with
        | some e => onError s ("failed to update plan state: " ++ e)
        | none => s
    else
      let s := revealReply s
      match params.State with
      | StateName.STATE_REPLYING | StateName.STATE_REVISING =>
        { s with reply := s.reply ++ content,
                 replyTokenCounter := s.replyTokenCounter ++ [content],
                 terminalHasPendingUpdate := true }
      | StateName.STATE_FINISHED =>
        let s := { s with term := s.term ++ [TermOp.spinnerStop], streamFinished := true }
        if s.filesFinished then closeDone s else s
      | StateName.STATE_DESCRIBING =>
        if content = env.STREAM_DESCRIPTION_PHASE then endReply env s
        else describePayload env s content
      | StateName.STATE_BUILDING =>
        if content = env.STREAM_BUILD_PHASE then s
        else buildPayload env s content
      | StateName.STATE_OTHER => s

/-- The statement `queue <- params` on the channel of capacity 1: the send
blocks for ever when the channel is full. -/
def sendQueue (s : Session) (params : OnStreamPlanParams) : Session :=
  if s.queue.length < 1 then { s with queue := s.queue ++ [params] }
  else { s with blocked := true }

/-- The deferred function of `handleStream`, run with the channel `queue`
holding the given list: a queued update is received and handled by a nested
call of `handleStream` (which sends it back when `running` is set, and
otherwise runs the body and then its own deferred function); `running` is
cleared once the queue is empty. -/
def drainQueue (env : Env) : List OnStreamPlanParams → Session → Session
  | [], s => { s with running := false }
  | params :: rest, s =>
    if s.running then sendQueue { s with queue := rest } params
    else drainQueue env rest (handleChunk env { s with queue := rest } params)

/-- The closure `handleStream`: when `running` is set the update goes to the
channel `queue`; otherwise the body runs and the deferred function follows,
also after a panic. -/
def handleStream (env : Env) (s : Session) (params : OnStreamPlanParams) : Session :=
  if s.running then sendQueue s params
  else
    let s := handleChunk env s params
    drainQueue env s.queue s

/-- The transport calling `handleStream` once per chunk, in order; a panic
ends the program and a blocked send never returns, so no call follows. -/
def run (env : Env) (s : Session) : List OnStreamPlanParams → Session
  | [] => s
  | params :: rest =>
    if s.panicked || s.blocked then s else run env (handleStream env s params) rest

/-! ## Notions used in the statements -/

/-- Lines 182 to 189: the plan state handed to `SetPlanState` by the chunk
that carries the identifier. -/
def idPlanState (planState : PlanState) (content : String) : PlanState :=
  { planState with ProposalId := content,
                   RootId := (if planState.RootId = "" then content else planState.RootId) }

/-- The identifier bookkeeping of a session: while no identifier is recorded
nothing has been appended, revealed or written; once one is recorded, the
first `SetPlanState` call of the session carried it, and it is among the
persisted plan states when that call returned no error. -/
def IdRecorded (env : Env) (s : Session) : Prop :=
  (s.proposalId = "" → s.reply = "" ∧ s.replyStarted = false ∧ s.setPlanStateCalls = []) ∧
  (s.proposalId ≠ "" → ∃ p, s.setPlanStateCalls.head? = some p ∧ p.ProposalId = s.proposalId ∧
      (env.SetPlanState 0 p = none → p ∈ s.persisted))

/-- Lines 259 to 264: whether the chunk is handed to the decoder, that is,
tagged Building and not the build-phase marker. -/
def isBuildPayload (env : Env) (c : OnStreamPlanParams) : Bool :=
  decide (c.State = StateName.STATE_BUILDING) && !decide (c.Content = env.STREAM_BUILD_PHASE)

/-- The per-file maps after the decoder calls of a stream: every build
payload of the stream, in arrival order, is decoded on the maps left by the
one before. -/
def decodedMaps (env : Env) :
    receiveFileChunkParams → List OnStreamPlanParams → receiveFileChunkParams
  | m, [] => m
  | m, c :: cs =>
    if isBuildPayload env c then
      decodedMaps env (env.receiveFileToken { m with Content := c.Content }).1 cs
    else decodedMaps env m cs

/-- Modelled from the spec: what one call of the file-chunk decoder
`receiveFileToken`, whose code is outside the file, does on a well-formed
fragment of a plan with the files `a` and `b`.  The call on `p` with result
`r` reports no error, keeps the paths already finished, newly marks no path
other than `a` and `b`, and returns `wroteFile` when it newly marks one. -/
def decoderCallOk (a b : String) (p : receiveFileChunkParams)
    (r : receiveFileChunkParams × Bool × Option String) : Bool :=
  r.2.2.isNone &&
  (p.FinishedByPath.map Prod.fst).all (fun k => mapHas r.1.FinishedByPath k) &&
  (r.1.FinishedByPath.map Prod.fst).all
    (fun k => mapHas p.FinishedByPath k || decide (k = a) || decide (k = b)) &&
  ((r.1.FinishedByPath.map Prod.fst).all (fun k => mapHas p.FinishedByPath k) || r.2.1)

/-- Every decoder call of the stream, started on the maps `m`, is as
`decoderCallOk` says. -/
def decoderCallsOk (env : Env) (a b : String) :
    receiveFileChunkParams → List OnStreamPlanParams → Bool
  | _, [] => true
  | m, c :: cs =>
    if isBuildPayload env c then
      decoderCallOk a b { m with Content := c.Content }
          (env.receiveFileToken { m with Content := c.Content }) &&
        decoderCallsOk env a b (env.receiveFileToken { m with Content := c.Content }).1 cs
    else decoderCallsOk env a b m cs

/-- The build phase of a plan with the files `a` and `b`: the description is
in place, only `a` and `b` can be marked finished, `filesFinished` says that
both are, and `done` is closed exactly when both completion flags are set. -/
def BuildPhase (d : PlanDescription) (a b : String) (s : Session) : Prop :=
  s.desc = some d ∧ s.proposalId ≠ "" ∧
  (∀ k, mapHas s.finishedByPath k = true → k = a ∨ k = b) ∧
  (s.filesFinished = true ↔ (mapHas s.finishedByPath a = true ∧ mapHas s.finishedByPath b = true)) ∧
  (s.doneClosed = true ↔ (s.streamFinished = true ∧ s.filesFinished = true))

/-! ## Concrete collaborators and chunks used at the worked inputs -/

/-- A description listing the files `a` and `b`. -/
def descAB : PlanDescription :=
  { MadePlan := true, Files := ["a", "b"], ResponseTimestamp := "t1" }

/-- A description of a reply that made no plan. -/
def descNone : PlanDescription :=
  { MadePlan := false, Files := [], ResponseTimestamp := "t1" }

/-- A decoder of descriptions that knows two payloads and reports a syntax
error, leaving `desc` as it is, on any other content. -/
def sampleUnmarshal (content : String) (desc : Option PlanDescription) :
    Option PlanDescription × Option String :=
  if content = "\x7b\"madePlan\":true,\"files\":[\"a\",\"b\"]\x7d" then (some descAB, none)
  else if content = "\x7b\"madePlan\":false,\"files\":[]\x7d" then (some descNone, none)
  else (desc, some "invalid character")

/-- A file-chunk decoder whose chunks `a` and `b` each complete the file of
that name (once); any other content is buffered under the path `a`. -/
def sampleDecoder (p : receiveFileChunkParams) :
    receiveFileChunkParams × Bool × Option String :=
  if p.Content = "a" ∨ p.Content = "b" then
    if mapHas p.FinishedByPath p.Content then (p, false, none)
    else ({ p with FinishedByPath := (p.Content, true) :: p.FinishedByPath }, true, none)
  else ({ p with JsonBuffers := ("a", p.Content) :: p.JsonBuffers }, false, none)

/-- Collaborators that never fail. -/
def sampleEnv : Env :=
  { STREAM_DESCRIPTION_PHASE := "<describe>", STREAM_BUILD_PHASE := "<build>",
    jsonUnmarshal := sampleUnmarshal,
    SetPlanState := fun _ _ => none,
    appendConversation := fun _ => none,
    receiveFileToken := sampleDecoder,
    GetMarkdown := fun reply => reply }

/-- The collaborators of `sampleEnv` with a plan-state store that rejects
every write. -/
def failingStoreEnv : Env :=
  { sampleEnv with SetPlanState := fun _ _ => some "disk full" }

/-- The plan state of a first proposal: nothing stored yet. -/
def emptyPlanState : PlanState := { ProposalId := "", RootId := "", Description := none }

/-- An error-free chunk. -/
def chunk (state : StateName) (content : String) : OnStreamPlanParams :=
  { State := state, Err := none, Content := content }

/-- A chunk carrying a transport error. -/
def errChunk (err : String) : OnStreamPlanParams :=
  { State := StateName.STATE_OTHER, Err := some err, Content := "" }

/-- A file-chunk decoder for any path: the content `?` is malformed and is
an error; any other content names a path and completes that file (once). -/
def pathDecoder (p : receiveFileChunkParams) :
    receiveFileChunkParams × Bool × Option String :=
  if p.Content = "?" then (p, false, some "malformed file chunk")
  else if mapHas p.FinishedByPath p.Content then (p, false, none)
  else ({ p with FinishedByPath := (p.Content, true) :: p.FinishedByPath }, true, none)

/-- The collaborators of `sampleEnv` with the decoder `pathDecoder`. -/
def pathEnv : Env :=
  { sampleEnv with receiveFileToken := pathDecoder }

/-- The collaborators of `sampleEnv` with a plan-state store that accepts the
first write of the session and rejects every later one. -/
def secondWriteFailsEnv : Env :=
  { sampleEnv with SetPlanState := fun n _ => if n = 0 then none else some "disk full" }

/-! ## Frame lemmas: what each closure leaves alone and what it writes -/

@[simp] theorem closeDone_reply (s : Session) :
    (closeDone s).reply = s.reply := by
  unfold closeDone; split <;> rfl

@[simp] theorem closeDone_proposalId (s : Session) :
    (closeDone s).proposalId = s.proposalId := by
  unfold closeDone; split <;> rfl

@[simp] theorem closeDone_replyStarted (s : Session) :
    (closeDone s).replyStarted = s.replyStarted := by
  unfold closeDone; split <;> rfl

@[simp] theorem closeDone_desc (s : Session) :
    (closeDone s).desc = s.desc := by
  unfold closeDone; split <;> rfl

@[simp] theorem closeDone_streamFinished (s : Session) :
    (closeDone s).streamFinished = s.streamFinished := by
  unfold closeDone; split <;> rfl

@[simp] theorem closeDone_filesFinished (s : Session) :
    (closeDone s).filesFinished = s.filesFinished := by
  unfold closeDone; split <;> rfl

@[simp] theorem closeDone_finishedByPath (s : Session) :
    (closeDone s).finishedByPath = s.finishedByPath := by
  unfold closeDone; split <;> rfl

@[simp] theorem closeDone_jsonBuffers (s : Session) :
    (closeDone s).jsonBuffers = s.jsonBuffers := by
  unfold closeDone; split <;> rfl

@[simp] theorem closeDone_numStreamedTokensByPath (s : Session) :
    (closeDone s).numStreamedTokensByPath = s.numStreamedTokensByPath := by
  unfold closeDone; split <;> rfl

@[simp] theorem closeDone_rootId (s : Session) :
    (closeDone s).rootId = s.rootId := by
  unfold closeDone; split <;> rfl

@[simp] theorem closeDone_planState (s : Session) :
    (closeDone s).planState = s.planState := by
  unfold closeDone; split <;> rfl

@[simp] theorem closeDone_running (s : Session) :
    (closeDone s).running = s.running := by
  unfold closeDone; split <;> rfl

@[simp] theorem closeDone_queue (s : Session) :
    (closeDone s).queue = s.queue := by
  unfold closeDone; split <;> rfl

@[simp] theorem closeDone_keywatchCancelled (s : Session) :
    (closeDone s).keywatchCancelled = s.keywatchCancelled := by
  unfold closeDone; split <;> rfl

@[simp] theorem closeDone_errors (s : Session) :
    (closeDone s).errors = s.errors := by
  unfold closeDone; split <;> rfl

@[simp] theorem closeDone_setPlanStateCalls (s : Session) :
    (closeDone s).setPlanStateCalls = s.setPlanStateCalls := by
  unfold closeDone; split <;> rfl

@[simp] theorem closeDone_persisted (s : Session) :
    (closeDone s).persisted = s.persisted := by
  unfold closeDone; split <;> rfl

@[simp] theorem closeDone_appendConversationCalls (s : Session) :
    (closeDone s).appendConversationCalls = s.appendConversationCalls := by
  unfold closeDone; split <;> rfl

@[simp] theorem closeDone_blocked (s : Session) :
    (closeDone s).blocked = s.blocked := by
  unfold closeDone; split <;> rfl

@[simp] theorem onError_reply (s : Session) (e : String) :
    (onError s e).reply = s.reply := by
  simp [onError]

@[simp] theorem onError_proposalId (s : Session) (e : String) :
    (onError s e).proposalId = s.proposalId := by
  simp [onError]

@[simp] theorem onError_replyStarted (s : Session) (e : String) :
    (onError s e).replyStarted = s.replyStarted := by
  simp [onError]

@[simp] theorem onError_desc (s : Session) (e : String) :
    (onError s e).desc = s.desc := by
  simp [onError]

@[simp] theorem onError_streamFinished (s : Session) (e : String) :
    (onError s e).streamFinished = s.streamFinished := by
  simp [onError]

@[simp] theorem onError_filesFinished (s : Session) (e : String) :
    (onError s e).filesFinished = s.filesFinished := by
  simp [onError]

@[simp] theorem onError_finishedByPath (s : Session) (e : String) :
    (onError s e).finishedByPath = s.finishedByPath := by
  simp [onError]

@[simp] theorem onError_jsonBuffers (s : Session) (e : String) :
    (onError s e).jsonBuffers = s.jsonBuffers := by
  simp [onError]

@[simp] theorem onError_numStreamedTokensByPath (s : Session) (e : String) :
    (onError s e).numStreamedTokensByPath = s.numStreamedTokensByPath := by
  simp [onError]

@[simp] theorem onError_rootId (s : Session) (e : String) :
    (onError s e).rootId = s.rootId := by
  simp [onError]

@[simp] theorem onError_planState (s : Session) (e : String) :
    (onError s e).planState = s.planState := by
  simp [onError]

@[simp] theorem onError_running (s : Session) (e : String) :
    (onError s e).running = s.running := by
  simp [onError]

@[simp] theorem onError_queue (s : Session) (e : String) :
    (onError s e).queue = s.queue := by
  simp [onError]

@[simp] theorem onError_setPlanStateCalls (s : Session) (e : String) :
    (onError s e).setPlanStateCalls = s.setPlanStateCalls := by
  simp [onError]

@[simp] theorem onError_persisted (s : Session) (e : String) :
    (onError s e).persisted = s.persisted := by
  simp [onError]

@[simp] theorem onError_appendConversationCalls (s : Session) (e : String) :
    (onError s e).appendConversationCalls = s.appendConversationCalls := by
  simp [onError]

@[simp] theorem onError_blocked (s : Session) (e : String) :
    (onError s e).blocked = s.blocked := by
  simp [onError]

@[simp] theorem callSetPlanState_reply (env : Env) (s : Session) :
    ((callSetPlanState env s).1).reply = s.reply := by
  rfl

@[simp] theorem callSetPlanState_proposalId (env : Env) (s : Session) :
    ((callSetPlanState env s).1).proposalId = s.proposalId := by
  rfl

@[simp] theorem callSetPlanState_replyStarted (env : Env) (s : Session) :
    ((callSetPlanState env s).1).replyStarted = s.replyStarted := by
  rfl

@[simp] theorem callSetPlanState_streamFinished (env : Env) (s : Session) :
    ((callSetPlanState env s).1).streamFinished = s.streamFinished := by
  rfl

@[simp] theorem callSetPlanState_filesFinished (env : Env) (s : Session) :
    ((callSetPlanState env s).1).filesFinished = s.filesFinished := by
  rfl

@[simp] theorem callSetPlanState_planState (env : Env) (s : Session) :
    ((callSetPlanState env s).1).planState = s.planState := by
  rfl

@[simp] theorem callSetPlanState_running (env : Env) (s : Session) :
    ((callSetPlanState env s).1).running = s.running := by
  rfl

@[simp] theorem callSetPlanState_queue (env : Env) (s : Session) :
    ((callSetPlanState env s).1).queue = s.queue := by
  rfl

@[simp] theorem callSetPlanState_doneClosed (env : Env) (s : Session) :
    ((callSetPlanState env s).1).doneClosed = s.doneClosed := by
  rfl

@[simp] theorem callSetPlanState_panicked (env : Env) (s : Session) :
    ((callSetPlanState env s).1).panicked = s.panicked := by
  rfl

@[simp] theorem callSetPlanState_blocked (env : Env) (s : Session) :
    ((callSetPlanState env s).1).blocked = s.blocked := by
  rfl

@[simp] theorem appendConvo_proposalId (env : Env) (s : Session) (d : PlanDescription) :
    (appendConvo env s d).proposalId = s.proposalId := by
  simp only [appendConvo]; split <;> rfl

@[simp] theorem appendConvo_streamFinished (env : Env) (s : Session) (d : PlanDescription) :
    (appendConvo env s d).streamFinished = s.streamFinished := by
  simp only [appendConvo]; split <;> rfl

@[simp] theorem appendConvo_filesFinished (env : Env) (s : Session) (d : PlanDescription) :
    (appendConvo env s d).filesFinished = s.filesFinished := by
  simp only [appendConvo]; split <;> rfl

@[simp] theorem appendConvo_planState (env : Env) (s : Session) (d : PlanDescription) :
    (appendConvo env s d).planState = s.planState := by
  simp only [appendConvo]; split <;> rfl

@[simp] theorem appendConvo_running (env : Env) (s : Session) (d : PlanDescription) :
    (appendConvo env s d).running = s.running := by
  simp only [appendConvo]; split <;> rfl

@[simp] theorem appendConvo_queue (env : Env) (s : Session) (d : PlanDescription) :
    (appendConvo env s d).queue = s.queue := by
  simp only [appendConvo]; split <;> rfl

@[simp] theorem appendConvo_setPlanStateCalls (env : Env) (s : Session) (d : PlanDescription) :
    (appendConvo env s d).setPlanStateCalls = s.setPlanStateCalls := by
  simp only [appendConvo]; split <;> rfl

@[simp] theorem appendConvo_persisted (env : Env) (s : Session) (d : PlanDescription) :
    (appendConvo env s d).persisted = s.persisted := by
  simp only [appendConvo]; split <;> rfl

@[simp] theorem appendConvo_blocked (env : Env) (s : Session) (d : PlanDescription) :
    (appendConvo env s d).blocked = s.blocked := by
  simp only [appendConvo]; split <;> rfl

@[simp] theorem endReply_proposalId (env : Env) (s : Session) :
    (endReply env s).proposalId = s.proposalId := by
  rfl

@[simp] theorem endReply_desc (env : Env) (s : Session) :
    (endReply env s).desc = s.desc := by
  rfl

@[simp] theorem endReply_streamFinished (env : Env) (s : Session) :
    (endReply env s).streamFinished = s.streamFinished := by
  rfl

@[simp] theorem endReply_filesFinished (env : Env) (s : Session) :
    (endReply env s).filesFinished = s.filesFinished := by
  rfl

@[simp] theorem endReply_finishedByPath (env : Env) (s : Session) :
    (endReply env s).finishedByPath = s.finishedByPath := by
  rfl

@[simp] theorem endReply_running (env : Env) (s : Session) :
    (endReply env s).running = s.running := by
  rfl

@[simp] theorem endReply_queue (env : Env) (s : Session) :
    (endReply env s).queue = s.queue := by
  rfl

@[simp] theorem endReply_doneClosed (env : Env) (s : Session) :
    (endReply env s).doneClosed = s.doneClosed := by
  rfl

@[simp] theorem endReply_setPlanStateCalls (env : Env) (s : Session) :
    (endReply env s).setPlanStateCalls = s.setPlanStateCalls := by
  rfl

@[simp] theorem endReply_persisted (env : Env) (s : Session) :
    (endReply env s).persisted = s.persisted := by
  rfl

@[simp] theorem endReply_blocked (env : Env) (s : Session) :
    (endReply env s).blocked = s.blocked := by
  rfl

@[simp] theorem unmarshalDesc_reply (env : Env) (s : Session) (c : String) :
    ((unmarshalDesc env s c).1).reply = s.reply := by
  simp only [unmarshalDesc]; split <;> rfl

@[simp] theorem unmarshalDesc_termState (env : Env) (s : Session) (c : String) :
    ((unmarshalDesc env s c).1).termState = s.termState := by
  simp only [unmarshalDesc]; split <;> rfl

@[simp] theorem unmarshalDesc_proposalId (env : Env) (s : Session) (c : String) :
    ((unmarshalDesc env s c).1).proposalId = s.proposalId := by
  simp only [unmarshalDesc]; split <;> rfl

@[simp] theorem unmarshalDesc_replyStarted (env : Env) (s : Session) (c : String) :
    ((unmarshalDesc env s c).1).replyStarted = s.replyStarted := by
  simp only [unmarshalDesc]; split <;> rfl

@[simp] theorem unmarshalDesc_terminalHasPendingUpdate (env : Env) (s : Session) (c : String) :
    ((unmarshalDesc env s c).1).terminalHasPendingUpdate = s.terminalHasPendingUpdate := by
  simp only [unmarshalDesc]; split <;> rfl

@[simp] theorem unmarshalDesc_state (env : Env) (s : Session) (c : String) :
    ((unmarshalDesc env s c).1).state = s.state := by
  simp only [unmarshalDesc]; split <;> rfl

@[simp] theorem unmarshalDesc_streamFinished (env : Env) (s : Session) (c : String) :
    ((unmarshalDesc env s c).1).streamFinished = s.streamFinished := by
  simp only [unmarshalDesc]; split <;> rfl

@[simp] theorem unmarshalDesc_filesFinished (env : Env) (s : Session) (c : String) :
    ((unmarshalDesc env s c).1).filesFinished = s.filesFinished := by
  simp only [unmarshalDesc]; split <;> rfl

@[simp] theorem unmarshalDesc_finishedByPath (env : Env) (s : Session) (c : String) :
    ((unmarshalDesc env s c).1).finishedByPath = s.finishedByPath := by
  simp only [unmarshalDesc]; split <;> rfl

@[simp] theorem unmarshalDesc_jsonBuffers (env : Env) (s : Session) (c : String) :
    ((unmarshalDesc env s c).1).jsonBuffers = s.jsonBuffers := by
  simp only [unmarshalDesc]; split <;> rfl

@[simp] theorem unmarshalDesc_numStreamedTokensByPath (env : Env) (s : Session) (c : String) :
    ((unmarshalDesc env s c).1).numStreamedTokensByPath = s.numStreamedTokensByPath := by
  simp only [unmarshalDesc]; split <;> rfl

@[simp] theorem unmarshalDesc_replyTokenCounter (env : Env) (s : Session) (c : String) :
    ((unmarshalDesc env s c).1).replyTokenCounter = s.replyTokenCounter := by
  simp only [unmarshalDesc]; split <;> rfl

@[simp] theorem unmarshalDesc_rootId (env : Env) (s : Session) (c : String) :
    ((unmarshalDesc env s c).1).rootId = s.rootId := by
  simp only [unmarshalDesc]; split <;> rfl

@[simp] theorem unmarshalDesc_running (env : Env) (s : Session) (c : String) :
    ((unmarshalDesc env s c).1).running = s.running := by
  simp only [unmarshalDesc]; split <;> rfl

@[simp] theorem unmarshalDesc_queue (env : Env) (s : Session) (c : String) :
    ((unmarshalDesc env s c).1).queue = s.queue := by
  simp only [unmarshalDesc]; split <;> rfl

@[simp] theorem unmarshalDesc_doneClosed (env : Env) (s : Session) (c : String) :
    ((unmarshalDesc env s c).1).doneClosed = s.doneClosed := by
  simp only [unmarshalDesc]; split <;> rfl

@[simp] theorem unmarshalDesc_keywatchCancelled (env : Env) (s : Session) (c : String) :
    ((unmarshalDesc env s c).1).keywatchCancelled = s.keywatchCancelled := by
  simp only [unmarshalDesc]; split <;> rfl

@[simp] theorem unmarshalDesc_errors (env : Env) (s : Session) (c : String) :
    ((unmarshalDesc env s c).1).errors = s.errors := by
  simp only [unmarshalDesc]; split <;> rfl

@[simp] theorem unmarshalDesc_term (env : Env) (s : Session) (c : String) :
    ((unmarshalDesc env s c).1).term = s.term := by
  simp only [unmarshalDesc]; split <;> rfl

@[simp] theorem unmarshalDesc_setPlanStateCalls (env : Env) (s : Session) (c : String) :
    ((unmarshalDesc env s c).1).setPlanStateCalls = s.setPlanStateCalls := by
  simp only [unmarshalDesc]; split <;> rfl

@[simp] theorem unmarshalDesc_persisted (env : Env) (s : Session) (c : String) :
    ((unmarshalDesc env s c).1).persisted = s.persisted := by
  simp only [unmarshalDesc]; split <;> rfl

@[simp] theorem unmarshalDesc_appendConversationCalls (env : Env) (s : Session) (c : String) :
    ((unmarshalDesc env s c).1).appendConversationCalls = s.appendConversationCalls := by
  simp only [unmarshalDesc]; split <;> rfl

@[simp] theorem unmarshalDesc_panicked (env : Env) (s : Session) (c : String) :
    ((unmarshalDesc env s c).1).panicked = s.panicked := by
  simp only [unmarshalDesc]; split <;> rfl

@[simp] theorem unmarshalDesc_blocked (env : Env) (s : Session) (c : String) :
    ((unmarshalDesc env s c).1).blocked = s.blocked := by
  simp only [unmarshalDesc]; split <;> rfl

@[simp] theorem revealReply_reply (s : Session) :
    (revealReply s).reply = s.reply := by
  unfold revealReply; split <;> rfl

@[simp] theorem revealReply_termState (s : Session) :
    (revealReply s).termState = s.termState := by
  unfold revealReply; split <;> rfl

@[simp] theorem revealReply_proposalId (s : Session) :
    (revealReply s).proposalId = s.proposalId := by
  unfold revealReply; split <;> rfl

@[simp] theorem revealReply_terminalHasPendingUpdate (s : Session) :
    (revealReply s).terminalHasPendingUpdate = s.terminalHasPendingUpdate := by
  unfold revealReply; split <;> rfl

@[simp] theorem revealReply_desc (s : Session) :
    (revealReply s).desc = s.desc := by
  unfold revealReply; split <;> rfl

@[simp] theorem revealReply_state (s : Session) :
    (revealReply s).state = s.state := by
  unfold revealReply; split <;> rfl

@[simp] theorem revealReply_streamFinished (s : Session) :
    (revealReply s).streamFinished = s.streamFinished := by
  unfold revealReply; split <;> rfl

@[simp] theorem revealReply_filesFinished (s : Session) :
    (revealReply s).filesFinished = s.filesFinished := by
  unfold revealReply; split <;> rfl

@[simp] theorem revealReply_finishedByPath (s : Session) :
    (revealReply s).finishedByPath = s.finishedByPath := by
  unfold revealReply; split <;> rfl

@[simp] theorem revealReply_jsonBuffers (s : Session) :
    (revealReply s).jsonBuffers = s.jsonBuffers := by
  unfold revealReply; split <;> rfl

@[simp] theorem revealReply_numStreamedTokensByPath (s : Session) :
    (revealReply s).numStreamedTokensByPath = s.numStreamedTokensByPath := by
  unfold revealReply; split <;> rfl

@[simp] theorem revealReply_replyTokenCounter (s : Session) :
    (revealReply s).replyTokenCounter = s.replyTokenCounter := by
  unfold revealReply; split <;> rfl

@[simp] theorem revealReply_rootId (s : Session) :
    (revealReply s).rootId = s.rootId := by
  unfold revealReply; split <;> rfl

@[simp] theorem revealReply_planState (s : Session) :
    (revealReply s).planState = s.planState := by
  unfold revealReply; split <;> rfl

@[simp] theorem revealReply_descShared (s : Session) :
    (revealReply s).descShared = s.descShared := by
  unfold revealReply; split <;> rfl

@[simp] theorem revealReply_running (s : Session) :
    (revealReply s).running = s.running := by
  unfold revealReply; split <;> rfl

@[simp] theorem revealReply_queue (s : Session) :
    (revealReply s).queue = s.queue := by
  unfold revealReply; split <;> rfl

@[simp] theorem revealReply_doneClosed (s : Session) :
    (revealReply s).doneClosed = s.doneClosed := by
  unfold revealReply; split <;> rfl

@[simp] theorem revealReply_keywatchCancelled (s : Session) :
    (revealReply s).keywatchCancelled = s.keywatchCancelled := by
  unfold revealReply; split <;> rfl

@[simp] theorem revealReply_errors (s : Session) :
    (revealReply s).errors = s.errors := by
  unfold revealReply; split <;> rfl

@[simp] theorem revealReply_setPlanStateCalls (s : Session) :
    (revealReply s).setPlanStateCalls = s.setPlanStateCalls := by
  unfold revealReply; split <;> rfl

@[simp] theorem revealReply_persisted (s : Session) :
    (revealReply s).persisted = s.persisted := by
  unfold revealReply; split <;> rfl

@[simp] theorem revealReply_appendConversationCalls (s : Session) :
    (revealReply s).appendConversationCalls = s.appendConversationCalls := by
  unfold revealReply; split <;> rfl

@[simp] theorem revealReply_panicked (s : Session) :
    (revealReply s).panicked = s.panicked := by
  unfold revealReply; split <;> rfl

@[simp] theorem revealReply_blocked (s : Session) :
    (revealReply s).blocked = s.blocked := by
  unfold revealReply; split <;> rfl

@[simp] theorem revealReply_started (s : Session) : (revealReply s).replyStarted = true := by
  unfold revealReply; split <;> simp_all

@[simp] theorem closeDone_doneClosed (s : Session) : (closeDone s).doneClosed = true := by
  unfold closeDone; split <;> simp_all

@[simp] theorem closeDone_panicked (s : Session) :
    (closeDone s).panicked = (s.panicked || s.doneClosed) := by
  unfold closeDone; split <;> simp_all

@[simp] theorem onError_doneClosed (s : Session) (e : String) :
    (onError s e).doneClosed = true := by
  simp [onError]

@[simp] theorem onError_panicked (s : Session) (e : String) :
    (onError s e).panicked = (s.panicked || s.doneClosed) := by
  simp [onError]

@[simp] theorem onError_errors (s : Session) (e : String) :
    (onError s e).errors = s.errors ++ [e] := by
  simp [onError]

@[simp] theorem onError_keywatchCancelled (s : Session) (e : String) :
    (onError s e).keywatchCancelled = true := by
  simp [onError]

@[simp] theorem callSetPlanState_calls (env : Env) (s : Session) :
    (callSetPlanState env s).1.setPlanStateCalls = s.setPlanStateCalls ++ [s.planState] := rfl

theorem callSetPlanState_persisted (env : Env) (s : Session) :
    (callSetPlanState env s).1.persisted =
      if (env.SetPlanState s.setPlanStateCalls.length s.planState).isNone
      then s.persisted ++ [s.planState] else s.persisted := rfl

@[simp] theorem callSetPlanState_snd (env : Env) (s : Session) :
    (callSetPlanState env s).2 = env.SetPlanState s.setPlanStateCalls.length s.planState := rfl

theorem callSetPlanState_persisted_grow (env : Env) (l : List PlanState) (s : Session)
    (h : s.persisted = l) : l <+: (callSetPlanState env s).1.persisted := by
  rw [callSetPlanState_persisted, h]; split <;> simp

@[simp] theorem unmarshalDesc_desc (env : Env) (s : Session) (c : String) :
    (unmarshalDesc env s c).1.desc = (env.jsonUnmarshal c s.desc).1 := by
  simp only [unmarshalDesc]; split <;> simp_all

@[simp] theorem unmarshalDesc_snd (env : Env) (s : Session) (c : String) :
    (unmarshalDesc env s c).2 = (env.jsonUnmarshal c s.desc).2 := by
  simp only [unmarshalDesc]; split <;> rfl

@[simp] theorem unmarshalDesc_ProposalId (env : Env) (s : Session) (c : String) :
    (unmarshalDesc env s c).1.planState.ProposalId = s.planState.ProposalId := by
  simp only [unmarshalDesc]; split <;> (try split) <;> rfl

@[simp] theorem unmarshalDesc_RootId (env : Env) (s : Session) (c : String) :
    (unmarshalDesc env s c).1.planState.RootId = s.planState.RootId := by
  simp only [unmarshalDesc]; split <;> (try split) <;> rfl

@[simp] theorem appendConvo_calls (env : Env) (s : Session) (d : PlanDescription) :
    (appendConvo env s d).appendConversationCalls = s.appendConversationCalls ++
      [{ ResponseTimestamp := d.ResponseTimestamp, Reply := s.reply,
         PlanState := s.planState }] := by
  simp only [appendConvo]; split <;> rfl

theorem decoderInput_reveal (s : Session) (st : StateName) (c : String) :
    decoderInput (revealReply { s with state := some st }) c = decoderInput s c := by
  simp [decoderInput]

/-! ## The two payload cases -/

@[simp] theorem describePayload_proposalId (env : Env) (s : Session) (c : String) :
    (describePayload env s c).proposalId = s.proposalId := by
  simp only [describePayload]; (repeat' split) <;> simp

@[simp] theorem describePayload_streamFinished (env : Env) (s : Session) (c : String) :
    (describePayload env s c).streamFinished = s.streamFinished := by
  simp only [describePayload]; (repeat' split) <;> simp

@[simp] theorem describePayload_running (env : Env) (s : Session) (c : String) :
    (describePayload env s c).running = s.running := by
  simp only [describePayload]; (repeat' split) <;> simp

@[simp] theorem describePayload_queue (env : Env) (s : Session) (c : String) :
    (describePayload env s c).queue = s.queue := by
  simp only [describePayload]; (repeat' split) <;> simp

@[simp] theorem describePayload_blocked (env : Env) (s : Session) (c : String) :
    (describePayload env s c).blocked = s.blocked := by
  simp only [describePayload]; (repeat' split) <;> simp

@[simp] theorem buildPayload_proposalId (env : Env) (s : Session) (c : String) :
    (buildPayload env s c).proposalId = s.proposalId := by
  simp only [buildPayload]; (repeat' split) <;> simp

@[simp] theorem buildPayload_desc (env : Env) (s : Session) (c : String) :
    (buildPayload env s c).desc = s.desc := by
  simp only [buildPayload]; (repeat' split) <;> simp

@[simp] theorem buildPayload_streamFinished (env : Env) (s : Session) (c : String) :
    (buildPayload env s c).streamFinished = s.streamFinished := by
  simp only [buildPayload]; (repeat' split) <;> simp

@[simp] theorem buildPayload_running (env : Env) (s : Session) (c : String) :
    (buildPayload env s c).running = s.running := by
  simp only [buildPayload]; (repeat' split) <;> simp

@[simp] theorem buildPayload_queue (env : Env) (s : Session) (c : String) :
    (buildPayload env s c).queue = s.queue := by
  simp only [buildPayload]; (repeat' split) <;> simp

@[simp] theorem buildPayload_setPlanStateCalls (env : Env) (s : Session) (c : String) :
    (buildPayload env s c).setPlanStateCalls = s.setPlanStateCalls := by
  simp only [buildPayload]; (repeat' split) <;> simp

@[simp] theorem buildPayload_persisted (env : Env) (s : Session) (c : String) :
    (buildPayload env s c).persisted = s.persisted := by
  simp only [buildPayload]; (repeat' split) <;> simp

@[simp] theorem buildPayload_blocked (env : Env) (s : Session) (c : String) :
    (buildPayload env s c).blocked = s.blocked := by
  simp only [buildPayload]; (repeat' split) <;> simp

@[simp] theorem buildPayload_finishedByPath (env : Env) (s : Session) (c : String) :
    (buildPayload env s c).finishedByPath
      = (env.receiveFileToken (decoderInput s c)).1.FinishedByPath := by
  simp only [buildPayload, decoderInput]; (repeat' split) <;> simp

@[simp] theorem buildPayload_jsonBuffers (env : Env) (s : Session) (c : String) :
    (buildPayload env s c).jsonBuffers
      = (env.receiveFileToken (decoderInput s c)).1.JsonBuffers := by
  simp only [buildPayload, decoderInput]; (repeat' split) <;> simp

@[simp] theorem buildPayload_numStreamedTokensByPath (env : Env) (s : Session) (c : String) :
    (buildPayload env s c).numStreamedTokensByPath
      = (env.receiveFileToken (decoderInput s c)).1.NumStreamedTokensByPath := by
  simp only [buildPayload, decoderInput]; (repeat' split) <;> simp

/-- The value of `filesFinished` after the `STATE_DESCRIBING` payload case
when the decoder returns a description and no error. -/
theorem describePayload_filesFinished (env : Env) (s : Session) (c : String)
    (d : PlanDescription) (h : env.jsonUnmarshal c s.desc = (some d, none)) :
    (describePayload env s c).filesFinished =
      if env.SetPlanState s.setPlanStateCalls.length
          { s.planState with Description := some d } = none
      then (if d.MadePlan && decide (d.Files.length > 0) then s.filesFinished else true)
      else s.filesFinished := by
  simp only [describePayload, unmarshalDesc_snd, h, unmarshalDesc_desc]
  simp only [callSetPlanState_snd, appendConvo_setPlanStateCalls, appendConvo_planState,
    unmarshalDesc_setPlanStateCalls, unmarshalDesc_ProposalId, unmarshalDesc_RootId]
  cases hset : env.SetPlanState s.setPlanStateCalls.length
      { s.planState with Description := some d } with
  | none =>
    simp only [if_true]
    split <;> simp
  | some e => simp

theorem describePayload_calls_grow (env : Env) (l : List PlanState) (s : Session)
    (c : String) (h : s.setPlanStateCalls = l) :
    l <+: (describePayload env s c).setPlanStateCalls := by
  subst h
  simp only [describePayload]; (repeat' split) <;> simp

theorem describePayload_persisted_grow (env : Env) (l : List PlanState) (s : Session)
    (c : String) (h : s.persisted = l) :
    l <+: (describePayload env s c).persisted := by
  subst h
  simp only [describePayload]
  repeat' split
  all_goals simp
  all_goals exact callSetPlanState_persisted_grow env _ _ (by simp)

/-- The flags after the `STATE_BUILDING` payload case when the decoder
reports no error and a description is present. -/
theorem buildPayload_flags (env : Env) (s : Session) (c : String) (d : PlanDescription)
    (hd : s.desc = some d)
    (herr : (env.receiveFileToken (decoderInput s c)).2.2 = none) :
    (buildPayload env s c).filesFinished =
      (s.filesFinished || ((env.receiveFileToken (decoderInput s c)).2.1 &&
        decide (mapLen (env.receiveFileToken (decoderInput s c)).1.FinishedByPath
          = d.Files.length))) ∧
    (buildPayload env s c).doneClosed =
      (s.doneClosed || ((env.receiveFileToken (decoderInput s c)).2.1 &&
        decide (mapLen (env.receiveFileToken (decoderInput s c)).1.FinishedByPath
          = d.Files.length) && s.streamFinished)) ∧
    (buildPayload env s c).panicked =
      (s.panicked || ((env.receiveFileToken (decoderInput s c)).2.1 &&
        decide (mapLen (env.receiveFileToken (decoderInput s c)).1.FinishedByPath
          = d.Files.length) && s.streamFinished && s.doneClosed)) := by
  simp only [buildPayload, herr, hd]
  cases hw : (env.receiveFileToken (decoderInput s c)).2.1
  · simp
    split <;> simp
  · by_cases hl : mapLen (env.receiveFileToken (decoderInput s c)).1.FinishedByPath
        = d.Files.length
    · cases hsf : s.streamFinished <;> simp [hl, hsf]
    · simp [hl]
      split <;> simp

/-! ## The body of `handleStream`, path by path -/

@[simp] theorem handleChunk_running (env : Env) (s : Session) (p : OnStreamPlanParams) :
    (handleChunk env s p).running = s.running := by
  simp only [handleChunk]; (repeat' split) <;> simp

@[simp] theorem handleChunk_queue (env : Env) (s : Session) (p : OnStreamPlanParams) :
    (handleChunk env s p).queue = s.queue := by
  simp only [handleChunk]; (repeat' split) <;> simp

@[simp] theorem handleChunk_blocked (env : Env) (s : Session) (p : OnStreamPlanParams) :
    (handleChunk env s p).blocked = s.blocked := by
  simp only [handleChunk]; (repeat' split) <;> simp

theorem handleChunk_of_err (env : Env) (s : Session) (c : OnStreamPlanParams) (e : String)
    (he : c.Err = some e) :
    handleChunk env s c = onError { s with state := some c.State } e := by
  simp [handleChunk, he]

theorem handleChunk_of_empty (env : Env) (s : Session) (c : OnStreamPlanParams)
    (he : c.Err = none) (hid : s.proposalId = "") (hc : c.Content = "") :
    handleChunk env s c
      = onError { s with state := some c.State } "proposal id not sent in first chunk" := by
  simp [handleChunk, he, hid, hc]

/-- The plan state written by the identifier chunk. -/
theorem handleChunk_of_id (env : Env) (s : Session) (c : OnStreamPlanParams)
    (hid : s.proposalId = "") (he : c.Err = none) (hc : c.Content ≠ "") :
    (handleChunk env s c).proposalId = c.Content ∧
    (handleChunk env s c).reply = s.reply ∧
    (handleChunk env s c).replyStarted = s.replyStarted ∧
    (handleChunk env s c).setPlanStateCalls = s.setPlanStateCalls ++
      [{ s.planState with ProposalId := c.Content,
                          RootId := if s.rootId = "" then c.Content else s.rootId }] ∧
    ((handleChunk env s c).panicked = true → s.panicked = true ∨ s.doneClosed = true) := by
  simp only [handleChunk, he, hid, hc, if_true, if_false]
  split <;> simp_all

theorem handleChunk_reply_of_replying (env : Env) (s : Session) (c : OnStreamPlanParams)
    (hid : s.proposalId ≠ "") (he : c.Err = none)
    (hs : c.State = StateName.STATE_REPLYING ∨ c.State = StateName.STATE_REVISING) :
    (handleChunk env s c).reply = s.reply ++ c.Content ∧
    (handleChunk env s c).proposalId = s.proposalId ∧
    (handleChunk env s c).panicked = s.panicked ∧
    (handleChunk env s c).replyStarted = true := by
  rcases hs with hs | hs <;> simp [handleChunk, he, hid, hs]

theorem handleChunk_of_describe (env : Env) (s : Session) (c : OnStreamPlanParams)
    (hid : s.proposalId ≠ "") (he : c.Err = none)
    (hst : c.State = StateName.STATE_DESCRIBING)
    (hm : c.Content ≠ env.STREAM_DESCRIPTION_PHASE) :
    handleChunk env s c
      = describePayload env (revealReply { s with state := some c.State }) c.Content := by
  simp [handleChunk, he, hid, hst, hm]

theorem handleChunk_of_finished (env : Env) (s : Session) (c : OnStreamPlanParams)
    (hid : s.proposalId ≠ "") (he : c.Err = none)
    (hst : c.State = StateName.STATE_FINISHED) :
    (handleChunk env s c).streamFinished = true ∧
    (s.filesFinished = true → (handleChunk env s c).doneClosed = true) ∧
    (s.filesFinished = false → (handleChunk env s c).doneClosed = s.doneClosed) := by
  simp only [handleChunk, he, hid, hst, if_false]
  refine ⟨?_, ?_, ?_⟩
  · split <;> simp
  · intro h; simp [h]
  · intro h; simp [h]

/-- The variables after an error-free Finished chunk. -/
theorem handleChunk_finished_fields (env : Env) (s : Session) (c : OnStreamPlanParams)
    (hid : s.proposalId ≠ "") (he : c.Err = none)
    (hst : c.State = StateName.STATE_FINISHED) :
    (handleChunk env s c).desc = s.desc ∧
    (handleChunk env s c).proposalId = s.proposalId ∧
    (handleChunk env s c).finishedByPath = s.finishedByPath ∧
    (handleChunk env s c).filesFinished = s.filesFinished ∧
    (handleChunk env s c).doneClosed = (s.doneClosed || s.filesFinished) ∧
    (handleChunk env s c).streamFinished = true ∧
    (handleChunk env s c).panicked = (s.panicked || (s.filesFinished && s.doneClosed)) ∧
    (handleChunk env s c).jsonBuffers = s.jsonBuffers ∧
    (handleChunk env s c).numStreamedTokensByPath = s.numStreamedTokensByPath := by
  simp only [handleChunk, he, hid, hst, if_false]
  cases hf : s.filesFinished <;> simp [hf]

theorem handleChunk_of_build (env : Env) (s : Session) (c : OnStreamPlanParams)
    (hid : s.proposalId ≠ "") (he : c.Err = none)
    (hst : c.State = StateName.STATE_BUILDING)
    (hm : c.Content ≠ env.STREAM_BUILD_PHASE) :
    handleChunk env s c
      = buildPayload env (revealReply { s with state := some c.State }) c.Content := by
  simp [handleChunk, he, hid, hst, hm]

/-- Case analysis on one run of the body, one hypothesis per path through
`handleStream`. -/
theorem handleChunk_cases (P : Session → Prop) (env : Env) (s : Session)
    (c : OnStreamPlanParams)
    (herr : ∀ e, c.Err = some e → P (onError { s with state := some c.State } e))
    (hempty : c.Err = none → s.proposalId = "" → c.Content = "" →
      P (onError { s with state := some c.State } "proposal id not sent in first chunk"))
    (hid : c.Err = none → s.proposalId = "" → c.Content ≠ "" →
      ∀ t, t = (callSetPlanState env
          { s with state := some c.State, proposalId := c.Content,
                   rootId := if s.rootId = "" then c.Content else s.rootId,
                   planState := { s.planState with
                     ProposalId := c.Content,
                     RootId := if s.rootId = "" then c.Content else s.rootId } }) →
        P (match t.2 with
           | some e => onError t.1 ("failed to update plan state: " ++ e)
           | none => t.1))
    (hreply : c.Err = none → s.proposalId ≠ "" →
      (c.State = StateName.STATE_REPLYING ∨ c.State = StateName.STATE_REVISING) →
      ∀ t, t = revealReply { s with state := some c.State } →
        P { t with reply := t.reply ++ c.Content,
                   replyTokenCounter := t.replyTokenCounter ++ [c.Content],
                   terminalHasPendingUpdate := true })
    (hfin : c.Err = none → s.proposalId ≠ "" → c.State = StateName.STATE_FINISHED →
      ∀ t, t = revealReply { s with state := some c.State } →
        P (if t.filesFinished then
             closeDone { t with term := t.term ++ [TermOp.spinnerStop], streamFinished := true }
           else { t with term := t.term ++ [TermOp.spinnerStop], streamFinished := true }))
    (hmarkD : c.Err = none → s.proposalId ≠ "" → c.State = StateName.STATE_DESCRIBING →
      c.Content = env.STREAM_DESCRIPTION_PHASE →
        P (endReply env (revealReply { s with state := some c.State })))
    (hdesc : c.Err = none → s.proposalId ≠ "" → c.State = StateName.STATE_DESCRIBING →
      c.Content ≠ env.STREAM_DESCRIPTION_PHASE →
        P (describePayload env (revealReply { s with state := some c.State }) c.Content))
    (hmarkB : c.Err = none → s.proposalId ≠ "" → c.State = StateName.STATE_BUILDING →
      c.Content = env.STREAM_BUILD_PHASE →
        P (revealReply { s with state := some c.State }))
    (hbuild : c.Err = none → s.proposalId ≠ "" → c.State = StateName.STATE_BUILDING →
      c.Content ≠ env.STREAM_BUILD_PHASE →
        P (buildPayload env (revealReply { s with state := some c.State }) c.Content))
    (hother : c.Err = none → s.proposalId ≠ "" → c.State = StateName.STATE_OTHER →
        P (revealReply { s with state := some c.State })) :
    P (handleChunk env s c) := by
  unfold handleChunk
  cases he : c.Err with
  | some e => simpa using herr e he
  | none =>
    by_cases hp : s.proposalId = ""
    · by_cases hc : c.Content = ""
      · simpa [hp, hc] using hempty he hp hc
      · simpa [hp, hc] using hid he hp hc _ rfl
    · cases hs : c.State with
      | STATE_REPLYING => simpa [hp, hs] using hreply he hp (Or.inl hs) _ rfl
      | STATE_REVISING => simpa [hp, hs] using hreply he hp (Or.inr hs) _ rfl
      | STATE_FINISHED =>
        have := hfin he hp hs _ rfl
        simp only [hs] at this
        simp only [hp, if_false]
        exact this
      | STATE_DESCRIBING =>
        by_cases hm : c.Content = env.STREAM_DESCRIPTION_PHASE
        · simpa [hp, hs, hm] using hmarkD he hp hs hm
        · simpa [hp, hs, hm] using hdesc he hp hs hm
      | STATE_BUILDING =>
        by_cases hm : c.Content = env.STREAM_BUILD_PHASE
        · simpa [hp, hs, hm] using hmarkB he hp hs hm
        · simpa [hp, hs, hm] using hbuild he hp hs hm
      | STATE_OTHER => simpa [hp, hs] using hother he hp hs

theorem handleChunk_calls_grow (env : Env) (s : Session) (c : OnStreamPlanParams) :
    s.setPlanStateCalls <+: (handleChunk env s c).setPlanStateCalls := by
  apply handleChunk_cases (fun t => s.setPlanStateCalls <+: t.setPlanStateCalls)
  · intros; simp
  · intros; simp
  · intro _ _ _ t ht; subst ht; split <;> simp
  · intro _ _ _ t ht; subst ht; simp
  · intro _ _ _ t ht; subst ht; split <;> simp
  · intros; simp
  · intros; exact describePayload_calls_grow env _ _ _ (by simp)
  · intros; simp
  · intros; simp
  · intros; simp

theorem handleChunk_persisted_grow (env : Env) (s : Session) (c : OnStreamPlanParams) :
    s.persisted <+: (handleChunk env s c).persisted := by
  apply handleChunk_cases (fun t => s.persisted <+: t.persisted)
  · intros; simp
  · intros; simp
  · intro _ _ _ t ht
    have h : s.persisted <+: t.1.persisted := by
      rw [ht]; exact callSetPlanState_persisted_grow env _ _ rfl
    split <;> simpa using h
  · intro _ _ _ t ht; subst ht; simp
  · intro _ _ _ t ht; subst ht; split <;> simp
  · intros; simp
  · intros; exact describePayload_persisted_grow env _ _ _ (by simp)
  · intros; simp
  · intros; simp
  · intros; simp

theorem handleChunk_proposalId (env : Env) (s : Session) (c : OnStreamPlanParams)
    (hid : s.proposalId ≠ "") : (handleChunk env s c).proposalId = s.proposalId := by
  apply handleChunk_cases (fun t => t.proposalId = s.proposalId)
  · intros; simp
  · intros; simp
  · intro _ h; exact absurd h hid
  · intro _ _ _ t ht; subst ht; simp
  · intro _ _ _ t ht; subst ht; split <;> simp
  · intros; simp
  · intros; simp
  · intros; simp
  · intros; simp
  · intros; simp

theorem handleChunk_streamFinished (env : Env) (s : Session) (c : OnStreamPlanParams)
    (h : s.streamFinished = true) : (handleChunk env s c).streamFinished = true := by
  apply handleChunk_cases (fun t => t.streamFinished = true)
  · intros; simpa using h
  · intros; simpa using h
  · intro _ _ _ t ht; subst ht; split <;> simpa using h
  · intro _ _ _ t ht; subst ht; simpa using h
  · intro _ _ _ t ht; subst ht; split <;> simp
  · intros; simpa using h
  · intros; simpa using h
  · intros; simpa using h
  · intros; simpa using h
  · intros; simpa using h

/-- Only a Finished chunk sets `streamFinished`. -/
theorem handleChunk_streamFinished_source (env : Env) (s : Session) (c : OnStreamPlanParams)
    (h : (handleChunk env s c).streamFinished = true) :
    s.streamFinished = true ∨ c.State = StateName.STATE_FINISHED := by
  revert h
  apply handleChunk_cases
    (fun t => t.streamFinished = true →
      s.streamFinished = true ∨ c.State = StateName.STATE_FINISHED)
  · intro _ _ h; exact Or.inl (by simpa using h)
  · intro _ _ _ h; exact Or.inl (by simpa using h)
  · intro _ _ _ t ht; subst ht; intro h; left; revert h; split <;> simp
  · intro _ _ _ t ht; subst ht; intro h; exact Or.inl (by simpa using h)
  · intro _ _ hs _ _ _; exact Or.inr hs
  · intro _ _ _ _ h; exact Or.inl (by simpa using h)
  · intro _ _ _ _ h; exact Or.inl (by simpa using h)
  · intro _ _ _ _ h; exact Or.inl (by simpa using h)
  · intro _ _ _ _ h; exact Or.inl (by simpa using h)
  · intro _ _ _ h; exact Or.inl (by simpa using h)

/-! ## The dispatch queue and the stream -/

theorem Session.running_eta (s : Session) (h : s.running = false) :
    { s with running := false } = s := by
  cases s; simp_all

/-- With the guard clear and the channel empty, a call of `handleStream` is
exactly one run of the body. -/
theorem handleStream_idle (env : Env) (s : Session) (p : OnStreamPlanParams)
    (hr : s.running = false) (hq : s.queue = []) :
    handleStream env s p = handleChunk env s p := by
  unfold handleStream
  rw [if_neg (by simp [hr])]
  show drainQueue env (handleChunk env s p).queue (handleChunk env s p) = _
  rw [handleChunk_queue, hq]
  simp only [drainQueue]
  exact Session.running_eta _ (by rw [handleChunk_running]; exact hr)

theorem run_idle (env : Env) (cs : List OnStreamPlanParams) (s : Session)
    (hr : s.running = false) (hq : s.queue = []) :
    (run env s cs).running = false ∧ (run env s cs).queue = [] := by
  induction cs generalizing s with
  | nil => exact ⟨hr, hq⟩
  | cons c cs ih =>
    simp only [run]
    split
    · exact ⟨hr, hq⟩
    · apply ih
      · rw [handleStream_idle env s c hr hq]; simp [hr]
      · rw [handleStream_idle env s c hr hq]; simp [hq]

theorem foldl_idle (env : Env) (cs : List OnStreamPlanParams) (s : Session)
    (hr : s.running = false) (hq : s.queue = []) (hb : s.blocked = false) :
    (cs.foldl (handleStream env) s).running = false ∧
    (cs.foldl (handleStream env) s).queue = [] ∧
    (cs.foldl (handleStream env) s).blocked = false := by
  induction cs generalizing s with
  | nil => exact ⟨hr, hq, hb⟩
  | cons c cs ih =>
    simp only [List.foldl_cons]
    apply ih <;> rw [handleStream_idle env s c hr hq] <;> simp [hr, hq, hb]

theorem run_blocked (env : Env) (cs : List OnStreamPlanParams) (s : Session)
    (hr : s.running = false) (hq : s.queue = []) (hb : s.blocked = false) :
    (run env s cs).blocked = false := by
  induction cs generalizing s with
  | nil => exact hb
  | cons c cs ih =>
    simp only [run]
    split
    · exact hb
    · apply ih <;> rw [handleStream_idle env s c hr hq] <;> simp [hr, hq, hb]

/-- A property kept by every run of the body from an idle session holds
along the whole stream. -/
theorem run_induction (P : Session → Prop) (env : Env)
    (hstep : ∀ s c, s.running = false → s.queue = [] → s.panicked = false → P s →
      P (handleChunk env s c)) :
    ∀ (cs : List OnStreamPlanParams) (s : Session),
      s.running = false → s.queue = [] → P s → P (run env s cs) := by
  intro cs
  induction cs with
  | nil => intro s _ _ h; exact h
  | cons c cs ih =>
    intro s hr hq h
    simp only [run]
    split
    · exact h
    · rename_i hpb
      have hp : s.panicked = false := by
        cases hpp : s.panicked
        · rfl
        · simp [hpp] at hpb
      rw [handleStream_idle env s c hr hq]
      exact ih _ (by simp [hr]) (by simp [hq]) (hstep s c hr hq hp h)

theorem run_cons_init (env : Env) (planState : PlanState) (c : OnStreamPlanParams)
    (cs : List OnStreamPlanParams) :
    run env (init planState) (c :: cs) = run env (handleChunk env (init planState) c) cs := by
  simp only [run]
  rw [handleStream_idle env _ c rfl rfl]
  simp [init]

theorem run_proposalId (env : Env) (cs : List OnStreamPlanParams) (s : Session)
    (hr : s.running = false) (hq : s.queue = []) (hid : s.proposalId ≠ "") :
    (run env s cs).proposalId = s.proposalId := by
  apply run_induction (fun t => t.proposalId = s.proposalId) env _ cs s hr hq rfl
  intro t c _ _ _ ht
  rw [handleChunk_proposalId env t c (by rw [ht]; exact hid)]; exact ht

theorem run_streamFinished_source (env : Env) (cs : List OnStreamPlanParams) (s : Session)
    (hr : s.running = false) (hq : s.queue = [])
    (h : (run env s cs).streamFinished = true) :
    s.streamFinished = true ∨ ∃ c ∈ cs, c.State = StateName.STATE_FINISHED := by
  induction cs generalizing s with
  | nil => exact Or.inl h
  | cons c cs ih =>
    simp only [run] at h
    split at h
    · exact Or.inl h
    · rw [handleStream_idle env s c hr hq] at h
      rcases ih _ (by simp [hr]) (by simp [hq]) h with h1 | ⟨c', hc', hs'⟩
      · rcases handleChunk_streamFinished_source env s c h1 with h2 | h2
        · exact Or.inl h2
        · exact Or.inr ⟨c, List.mem_cons_self _ _, h2⟩
      · exact Or.inr ⟨c', List.mem_cons_of_mem _ hc', hs'⟩

/-! ## C1: the reply is the concatenation of the Replying contents -/

theorem String.join_cons_eq (a : String) (l : List String) :
    String.join (a :: l) = a ++ String.join l := by
  apply String.ext
  simp [String.data_join]

theorem run_replying (env : Env) (cs : List OnStreamPlanParams) (s : Session)
    (hr : s.running = false) (hq : s.queue = []) (hb : s.blocked = false)
    (hp : s.panicked = false) (hid : s.proposalId ≠ "")
    (hcs : ∀ c ∈ cs, c.Err = none ∧
      (c.State = StateName.STATE_REPLYING ∨ c.State = StateName.STATE_REVISING)) :
    (run env s cs).reply = s.reply ++ String.join (cs.map (fun c => c.Content)) ∧
    (run env s cs).panicked = false := by
  induction cs generalizing s with
  | nil => simp [run, hp, String.join]
  | cons c cs ih =>
    have hc := hcs c (List.mem_cons_self _ _)
    have hstep := handleChunk_reply_of_replying env s c hid hc.1 hc.2
    simp only [run, hp, hb, Bool.or_self, Bool.false_eq_true, if_false, List.map_cons]
    rw [handleStream_idle env s c hr hq]
    have := ih (handleChunk env s c) (by simp [hr]) (by simp [hq]) (by simp [hb])
      (by rw [hstep.2.2.1]; exact hp) (by rw [hstep.2.1]; exact hid)
      (fun c' hc' => hcs c' (List.mem_cons_of_mem _ hc'))
    rw [this.1, hstep.1, String.join_cons_eq, String.append_assoc]
    exact ⟨rfl, this.2⟩

/-- C1: after one error-free identifier chunk with non-empty content and N
error-free chunks tagged Replying or Revising, the reply held by
`handleStream` is the concatenation of the N contents in arrival order (the
empty string when N = 0); the identifier is not part of it, and every chunk
of the sequence was handled (no panic). -/
theorem reply_is_concatenation (env : Env) (planState : PlanState)
    (idChunk : OnStreamPlanParams) (cs : List OnStreamPlanParams)
    (he : idChunk.Err = none) (hne : idChunk.Content ≠ "")
    (hcs : ∀ c ∈ cs, c.Err = none ∧
      (c.State = StateName.STATE_REPLYING ∨ c.State = StateName.STATE_REVISING)) :
    (run env (init planState) (idChunk :: cs)).reply
      = String.join (cs.map (fun c => c.Content)) ∧
    (run env (init planState) (idChunk :: cs)).panicked = false := by
  have h1 := handleChunk_of_id env (init planState) idChunk rfl he hne
  have hrun : run env (init planState) (idChunk :: cs)
      = run env (handleChunk env (init planState) idChunk) cs := by
    simp only [run]
    rw [handleStream_idle env _ idChunk rfl rfl]
    simp [init]
  rw [hrun]
  have hp : (handleChunk env (init planState) idChunk).panicked = false := by
    cases hpp : (handleChunk env (init planState) idChunk).panicked
    · rfl
    · rcases h1.2.2.2.2 hpp with h | h <;> simp [init] at h
  have := run_replying env cs (handleChunk env (init planState) idChunk)
    (by simp [init]) (by simp [init]) (by simp [init]) hp
    (by rw [h1.1]; exact hne) hcs
  rw [this.1, h1.2.1]
  exact ⟨by simp [init], this.2⟩

/-- C1 at a concrete stream: identifier `p1`, then `Hello` and ` world`. -/
theorem reply_is_concatenation_witness :
    (run sampleEnv (init emptyPlanState)
        (chunk StateName.STATE_REPLYING "p1" ::
          [chunk StateName.STATE_REPLYING "Hello", chunk StateName.STATE_REVISING " world"])).reply
      = String.join (([chunk StateName.STATE_REPLYING "Hello",
          chunk StateName.STATE_REVISING " world"]).map (fun c => c.Content)) ∧
    (run sampleEnv (init emptyPlanState)
        (chunk StateName.STATE_REPLYING "p1" ::
          [chunk StateName.STATE_REPLYING "Hello", chunk StateName.STATE_REVISING " world"])).panicked
      = false :=
  reply_is_concatenation sampleEnv emptyPlanState _ _ rfl (by decide) (by decide)

/-! ## C2: completion of a plan with two files -/

theorem mapHas_iff_mem_keys {V : Type} (m : GoMap V) (k : String) :
    mapHas m k = true ↔ k ∈ m.map Prod.fst := by
  unfold mapHas
  induction m with
  | nil => simp [List.lookup]
  | cons p m ih =>
    obtain ⟨k', v⟩ := p
    by_cases h : k = k'
    · subst h; simp [List.lookup]
    · have h' : (k == k') = false := by simpa using h
      simp [List.lookup, h', ih, h]

theorem mapLen_eq_card {V : Type} (m : GoMap V) :
    mapLen m = (m.map Prod.fst).toFinset.card := by
  unfold mapLen
  rw [List.card_toFinset]

/-- With all keys among two distinct paths, `len` is 2 exactly when both
paths are keys. -/
theorem mapLen_eq_two_iff {V : Type} (m : GoMap V) (a b : String) (hab : a ≠ b)
    (hsub : ∀ k, mapHas m k = true → k = a ∨ k = b) :
    mapLen m = 2 ↔ (mapHas m a = true ∧ mapHas m b = true) := by
  rw [mapLen_eq_card, mapHas_iff_mem_keys, mapHas_iff_mem_keys]
  have hsub' : (m.map Prod.fst).toFinset ⊆ {a, b} := by
    intro k hk
    rw [List.mem_toFinset, ← mapHas_iff_mem_keys] at hk
    rcases hsub k hk with h | h <;> simp [h]
  have hcard : ({a, b} : Finset String).card = 2 := Finset.card_pair hab
  constructor
  · intro h
    have heq : (m.map Prod.fst).toFinset = {a, b} :=
      Finset.eq_of_subset_of_card_le hsub' (by rw [hcard, h])
    have ha : a ∈ (m.map Prod.fst).toFinset := by rw [heq]; simp
    have hb : b ∈ (m.map Prod.fst).toFinset := by rw [heq]; simp
    exact ⟨List.mem_toFinset.mp ha, List.mem_toFinset.mp hb⟩
  · rintro ⟨ha, hb⟩
    have heq : (m.map Prod.fst).toFinset = {a, b} := by
      apply Finset.Subset.antisymm hsub'
      intro k hk
      simp only [Finset.mem_insert, Finset.mem_singleton] at hk
      rcases hk with h | h <;> subst h <;> exact List.mem_toFinset.mpr ‹_›
    rw [heq, hcard]

theorem BuildPhase_of_frame (d : PlanDescription) (a b : String) (s t : Session)
    (h : BuildPhase d a b s)
    (ht1 : t.desc = s.desc) (ht2 : t.proposalId = s.proposalId)
    (ht3 : t.finishedByPath = s.finishedByPath) (ht4 : t.filesFinished = s.filesFinished)
    (ht5 : t.doneClosed = s.doneClosed) (ht6 : t.streamFinished = s.streamFinished) :
    BuildPhase d a b t := by
  unfold BuildPhase
  rw [ht1, ht2, ht3, ht4, ht5, ht6]
  exact h

/-- What `decoderCallOk` says, path by path. -/
theorem decoderCallOk_spec (a b : String) (p : receiveFileChunkParams)
    (r : receiveFileChunkParams × Bool × Option String)
    (h : decoderCallOk a b p r = true) :
    r.2.2 = none ∧
    (∀ k, mapHas p.FinishedByPath k = true → mapHas r.1.FinishedByPath k = true) ∧
    (∀ k, mapHas r.1.FinishedByPath k = true →
      mapHas p.FinishedByPath k = true ∨ k = a ∨ k = b) ∧
    (∀ k, mapHas r.1.FinishedByPath k = true → mapHas p.FinishedByPath k = false →
      r.2.1 = true) := by
  simp only [decoderCallOk, Bool.and_eq_true, Bool.or_eq_true, List.all_eq_true,
    decide_eq_true_eq, Option.isNone_iff_eq_none] at h
  obtain ⟨⟨⟨h1, h2⟩, h3⟩, h4⟩ := h
  refine ⟨h1, ?_, ?_, ?_⟩
  · intro k hk
    exact h2 k ((mapHas_iff_mem_keys _ _).mp hk)
  · intro k hk
    rcases h3 k ((mapHas_iff_mem_keys _ _).mp hk) with (h5 | h5) | h5
    · exact Or.inl h5
    · exact Or.inr (Or.inl h5)
    · exact Or.inr (Or.inr h5)
  · intro k hk hno
    rcases h4 with h4 | h4
    · have := h4 k ((mapHas_iff_mem_keys _ _).mp hk)
      rw [hno] at this; exact absurd this (by simp)
    · exact h4

/-- The build-phase invariant is kept by the `STATE_BUILDING` payload case
when the decoder call is as `decoderCallOk` says. -/
theorem BuildPhase_build (env : Env) (d : PlanDescription) (a b : String) (s t : Session)
    (c : String) (hab : a ≠ b) (hfiles : d.Files = [a, b])
    (hcall : decoderCallOk a b (decoderInput s c)
      (env.receiveFileToken (decoderInput s c)) = true)
    (h : BuildPhase d a b s)
    (ht1 : t.desc = s.desc) (ht2 : t.proposalId = s.proposalId)
    (ht4 : t.filesFinished = s.filesFinished)
    (ht5 : t.doneClosed = s.doneClosed) (ht6 : t.streamFinished = s.streamFinished)
    (ht7 : decoderInput t c = decoderInput s c) :
    BuildPhase d a b (buildPayload env t c) := by
  obtain ⟨hd, hid, hkeys, hff, hdc⟩ := h
  obtain ⟨herr, hmono, hsub, hwrote⟩ := decoderCallOk_spec a b _ _ hcall
  have hflags := buildPayload_flags env t c d (ht1.trans hd) (by rw [ht7]; exact herr)
  rw [ht7, ht4, ht5, ht6, hfiles] at hflags
  have hin : (decoderInput s c).FinishedByPath = s.finishedByPath := rfl
  rw [hin] at hmono hsub hwrote
  have hkeys' : ∀ k, mapHas (env.receiveFileToken (decoderInput s c)).1.FinishedByPath k = true →
      k = a ∨ k = b := by
    intro k hk
    rcases hsub k hk with h1 | h1
    · exact hkeys k h1
    · exact h1
  have hlen := mapLen_eq_two_iff _ a b hab hkeys'
  have hff' : (buildPayload env t c).filesFinished = true ↔
      (mapHas (env.receiveFileToken (decoderInput s c)).1.FinishedByPath a = true ∧
       mapHas (env.receiveFileToken (decoderInput s c)).1.FinishedByPath b = true) := by
    rw [hflags.1]
    constructor
    · intro h1
      simp only [Bool.or_eq_true, Bool.and_eq_true, decide_eq_true_eq] at h1
      rcases h1 with h1 | ⟨_, h1⟩
      · exact ⟨hmono a (hff.mp h1).1, hmono b (hff.mp h1).2⟩
      · exact hlen.mp h1
    · intro h1
      simp only [Bool.or_eq_true, Bool.and_eq_true, decide_eq_true_eq]
      by_cases h2 : s.filesFinished = true
      · exact Or.inl h2
      · right
        refine ⟨?_, hlen.mpr h1⟩
        have h3 : ¬ (mapHas s.finishedByPath a = true ∧ mapHas s.finishedByPath b = true) :=
          fun h3 => h2 (hff.mpr h3)
        by_cases ha : mapHas s.finishedByPath a = true
        · have hb : mapHas s.finishedByPath b = false := by
            cases hb' : mapHas s.finishedByPath b
            · rfl
            · exact absurd ⟨ha, hb'⟩ h3
          exact hwrote b h1.2 hb
        · have ha' : mapHas s.finishedByPath a = false := by
            cases ha'' : mapHas s.finishedByPath a
            · rfl
            · exact absurd ha'' ha
          exact hwrote a h1.1 ha'
  refine ⟨?_, ?_, ?_, ?_, ?_⟩
  · rw [buildPayload_desc, ht1]; exact hd
  · rw [buildPayload_proposalId, ht2]; exact hid
  · rw [buildPayload_finishedByPath, ht7]; exact hkeys'
  · rw [buildPayload_finishedByPath, ht7]; exact hff'
  · rw [buildPayload_streamFinished, ht6]
    have e1 : (buildPayload env t c).filesFinished =
        (s.filesFinished || ((env.receiveFileToken (decoderInput s c)).2.1 &&
          decide (mapLen (env.receiveFileToken (decoderInput s c)).1.FinishedByPath
            = [a, b].length))) := hflags.1
    rw [hflags.2.1, e1]
    cases hsf : s.streamFinished <;> cases hf : s.filesFinished <;>
      cases hc : s.doneClosed <;> simp_all

/-- The build-phase invariant is kept by every error-free chunk that is not a
description payload, when its decoder call is as `decoderCallOk` says. -/
theorem BuildPhase_step (env : Env) (d : PlanDescription) (a b : String) (s : Session)
    (c : OnStreamPlanParams) (hab : a ≠ b) (hfiles : d.Files = [a, b])
    (h : BuildPhase d a b s) (he : c.Err = none)
    (hnd : c.State = StateName.STATE_DESCRIBING → c.Content = env.STREAM_DESCRIPTION_PHASE)
    (hcall : isBuildPayload env c = true →
      decoderCallOk a b (decoderInput s c.Content)
        (env.receiveFileToken (decoderInput s c.Content)) = true) :
    BuildPhase d a b (handleChunk env s c) := by
  have hid : s.proposalId ≠ "" := h.2.1
  by_cases hs : c.State = StateName.STATE_FINISHED
  · obtain ⟨e1, e2, e3, e4, e5, e6, _⟩ := handleChunk_finished_fields env s c hid he hs
    obtain ⟨hd, _, hkeys, hff, hdc⟩ := h
    unfold BuildPhase
    rw [e1, e2, e3, e4, e5, e6]
    refine ⟨hd, hid, hkeys, hff, ?_⟩
    cases hsf : s.streamFinished <;> cases hf : s.filesFinished <;>
      cases hc : s.doneClosed <;> simp_all
  apply handleChunk_cases (BuildPhase d a b)
  · intro e he'; rw [he] at he'; exact Option.noConfusion he'
  · intro _ h'; exact absurd h' hid
  · intro _ h'; exact absurd h' hid
  · intro _ _ _ t ht; subst ht
    exact BuildPhase_of_frame d a b s _ h (by simp) (by simp) (by simp) (by simp) (by simp)
      (by simp)
  · intro _ _ hs'; exact absurd hs' hs
  · intros
    exact BuildPhase_of_frame d a b s _ h (by simp) (by simp) (by simp) (by simp) (by simp)
      (by simp)
  · intro _ _ hs hm; exact absurd (hnd hs) hm
  · intros
    exact BuildPhase_of_frame d a b s _ h (by simp) (by simp) (by simp) (by simp) (by simp)
      (by simp)
  · intro _ _ hst hm
    exact BuildPhase_build env d a b s _ c.Content hab hfiles
      (hcall (by simp [isBuildPayload, hst, hm])) h (by simp) (by simp)
      (by simp) (by simp) (by simp) (decoderInput_reveal s c.State c.Content)
  · intros
    exact BuildPhase_of_frame d a b s _ h (by simp) (by simp) (by simp) (by simp) (by simp)
      (by simp)

/-- The per-file maps after an error-free chunk that is not a description
payload: a build payload leaves the maps returned by the decoder, every
other chunk leaves the maps alone. -/
theorem handleChunk_maps (env : Env) (s : Session) (c : OnStreamPlanParams)
    (hid : s.proposalId ≠ "") (he : c.Err = none)
    (hnd : c.State = StateName.STATE_DESCRIBING → c.Content = env.STREAM_DESCRIPTION_PHASE) :
    (isBuildPayload env c = true →
      (handleChunk env s c).jsonBuffers
        = (env.receiveFileToken (decoderInput s c.Content)).1.JsonBuffers ∧
      (handleChunk env s c).numStreamedTokensByPath
        = (env.receiveFileToken (decoderInput s c.Content)).1.NumStreamedTokensByPath ∧
      (handleChunk env s c).finishedByPath
        = (env.receiveFileToken (decoderInput s c.Content)).1.FinishedByPath) ∧
    (isBuildPayload env c = false →
      (handleChunk env s c).jsonBuffers = s.jsonBuffers ∧
      (handleChunk env s c).numStreamedTokensByPath = s.numStreamedTokensByPath ∧
      (handleChunk env s c).finishedByPath = s.finishedByPath) := by
  constructor
  · intro hb
    simp only [isBuildPayload, Bool.and_eq_true, decide_eq_true_eq, Bool.not_eq_true',
      decide_eq_false_iff_not] at hb
    rw [handleChunk_of_build env s c hid he hb.1 hb.2]
    simp [decoderInput]
  · intro hb
    apply handleChunk_cases (fun t => t.jsonBuffers = s.jsonBuffers ∧
      t.numStreamedTokensByPath = s.numStreamedTokensByPath ∧
      t.finishedByPath = s.finishedByPath)
    · intro e he'; rw [he] at he'; exact Option.noConfusion he'
    · intro _ h'; exact absurd h' hid
    · intro _ h'; exact absurd h' hid
    · intro _ _ _ t ht; subst ht; simp
    · intro _ _ _ t ht; subst ht; split <;> simp
    · intros; simp [endReply]
    · intro _ _ hs hm; exact absurd (hnd hs) hm
    · intros; simp
    · intro _ _ hst hm
      simp [isBuildPayload, hst, hm] at hb
    · intros; simp

/-- In the build phase an error-free chunk that is not a description payload
and whose decoder call reports no error panics only by closing the closed
`done`. -/
theorem handleChunk_panic_closed (env : Env) (d : PlanDescription) (s : Session)
    (c : OnStreamPlanParams) (hid : s.proposalId ≠ "") (hd : s.desc = some d)
    (he : c.Err = none)
    (hnd : c.State = StateName.STATE_DESCRIBING → c.Content = env.STREAM_DESCRIPTION_PHASE)
    (herr : isBuildPayload env c = true →
      (env.receiveFileToken (decoderInput s c.Content)).2.2 = none)
    (hp : (handleChunk env s c).panicked = true) :
    s.panicked = true ∨ (handleChunk env s c).doneClosed = true := by
  revert hp
  by_cases hs : c.State = StateName.STATE_FINISHED
  · obtain ⟨_, _, _, _, e5, _, e7, _⟩ := handleChunk_finished_fields env s c hid he hs
    rw [e7, e5]
    cases hpp : s.panicked <;> cases hf : s.filesFinished <;> cases hc : s.doneClosed <;>
      simp
  apply handleChunk_cases
    (fun t => t.panicked = true → s.panicked = true ∨ t.doneClosed = true)
  · intro e he'; rw [he] at he'; exact Option.noConfusion he'
  · intro _ h'; exact absurd h' hid
  · intro _ h'; exact absurd h' hid
  · intro _ _ _ t ht; subst ht; intro h; exact Or.inl (by simpa using h)
  · intro _ _ hs'; exact absurd hs' hs
  · intro _ _ _ _ h; exact Or.inl (by simpa [endReply] using h)
  · intro _ _ hs' hm; exact absurd (hnd hs') hm
  · intro _ _ _ _ h; exact Or.inl (by simpa using h)
  · intro _ _ hst hm h
    have hflags := buildPayload_flags env (revealReply { s with state := some c.State })
      c.Content d (by simpa using hd)
      (by rw [decoderInput_reveal]; exact herr (by simp [isBuildPayload, hst, hm]))
    rw [hflags.2.2] at h
    rw [hflags.2.1]
    simp only [revealReply_panicked, revealReply_doneClosed, revealReply_streamFinished] at h ⊢
    cases hpp : s.panicked
    · right
      rw [hpp] at h
      simp only [Bool.false_or, Bool.and_eq_true] at h
      simp [h.1.1.1, h.1.1.2, h.1.2, h.2]
    · exact Or.inl rfl
  · intro _ _ _ h; exact Or.inl (by simpa using h)


theorem run_of_panicked (env : Env) (cs : List OnStreamPlanParams) (s : Session)
    (h : s.panicked = true) : run env s cs = s := by
  cases cs with
  | nil => rfl
  | cons c cs => simp [run, h]

/-- The decoder calls of a stream keep the paths that were finished before
it, when every call is as `decoderCallOk` says. -/
theorem decodedMaps_keeps (env : Env) (a b : String) (cs : List OnStreamPlanParams)
    (m : receiveFileChunkParams) (h : decoderCallsOk env a b m cs = true) (k : String)
    (hk : mapHas m.FinishedByPath k = true) :
    mapHas (decodedMaps env m cs).FinishedByPath k = true := by
  induction cs generalizing m with
  | nil => exact hk
  | cons c cs ih =>
    by_cases hb : isBuildPayload env c = true
    · simp only [decoderCallsOk, hb, if_true, Bool.and_eq_true] at h
      simp only [decodedMaps, hb, if_true]
      exact ih _ h.2 ((decoderCallOk_spec a b _ _ h.1).2.1 k hk)
    · have hb' : isBuildPayload env c = false := by
        cases h' : isBuildPayload env c
        · rfl
        · exact absurd h' hb
      simp only [decoderCallsOk, hb', Bool.false_eq_true, if_false] at h
      simp only [decodedMaps, hb', Bool.false_eq_true, if_false]
      exact ih _ h hk

/-- The run of a stream from a session in its build phase, against the
decoder calls of the stream: the invariant is kept, the per-file maps are
those the decoder calls produce as long as nothing panicked, a panic comes
with `done` closed, and without a panic a Finished chunk of the stream has
set `streamFinished`. -/
theorem build_run (env : Env) (d : PlanDescription) (a b : String) (hab : a ≠ b)
    (hfiles : d.Files = [a, b]) :
    ∀ (cs : List OnStreamPlanParams) (t : Session) (m : receiveFileChunkParams),
      t.running = false → t.queue = [] → t.blocked = false → t.panicked = false →
      BuildPhase d a b t →
      t.jsonBuffers = m.JsonBuffers →
      t.numStreamedTokensByPath = m.NumStreamedTokensByPath →
      t.finishedByPath = m.FinishedByPath →
      (∀ c ∈ cs, c.Err = none ∧
        (c.State = StateName.STATE_DESCRIBING → c.Content = env.STREAM_DESCRIPTION_PHASE)) →
      decoderCallsOk env a b m cs = true →
      BuildPhase d a b (run env t cs) ∧
      ((run env t cs).panicked = false →
        (run env t cs).jsonBuffers = (decodedMaps env m cs).JsonBuffers ∧
        (run env t cs).numStreamedTokensByPath
          = (decodedMaps env m cs).NumStreamedTokensByPath ∧
        (run env t cs).finishedByPath = (decodedMaps env m cs).FinishedByPath) ∧
      (∀ k, mapHas (run env t cs).finishedByPath k = true →
        mapHas (decodedMaps env m cs).FinishedByPath k = true) ∧
      ((run env t cs).panicked = true → (run env t cs).doneClosed = true) ∧
      ((run env t cs).panicked = false →
        (t.streamFinished = true ∨ ∃ c ∈ cs, c.State = StateName.STATE_FINISHED) →
        (run env t cs).streamFinished = true) := by
  intro cs
  induction cs with
  | nil =>
    intro t m _ _ _ hp hbp h1 h2 h3 _ _
    refine ⟨hbp, fun _ => ⟨h1, h2, h3⟩, ?_, ?_, ?_⟩
    · intro k hk
      have hk' : mapHas t.finishedByPath k = true := hk
      rw [h3] at hk'; exact hk'
    · intro h
      have h' : t.panicked = true := h
      rw [hp] at h'; exact absurd h' (by simp)
    intro _ h
    rcases h with h | ⟨c, hc, _⟩
    · exact h
    · exact absurd hc (List.not_mem_nil c)
  | cons c cs ih =>
    intro t m hr hq hb hp hbp h1 h2 h3 hcs hdec
    have hc := hcs c (List.mem_cons_self _ _)
    have hcs' : ∀ c' ∈ cs, c'.Err = none ∧ (c'.State = StateName.STATE_DESCRIBING →
        c'.Content = env.STREAM_DESCRIPTION_PHASE) :=
      fun c' h' => hcs c' (List.mem_cons_of_mem _ h')
    have hin : ∀ x, decoderInput t x = { m with Content := x } := by
      intro x; simp only [decoderInput, h1, h2, h3]
    have hrun : run env t (c :: cs) = run env (handleChunk env t c) cs := by
      simp only [run, hp, hb, Bool.or_self, Bool.false_eq_true, if_false]
      rw [handleStream_idle env t c hr hq]
    rw [hrun]
    have hid : t.proposalId ≠ "" := hbp.2.1
    have hmaps := handleChunk_maps env t c hid hc.1 hc.2
    have hsfm : t.streamFinished = true ∨ c.State = StateName.STATE_FINISHED →
        (handleChunk env t c).streamFinished = true := by
      intro h
      rcases h with h | h
      · exact handleChunk_streamFinished env t c h
      · exact (handleChunk_of_finished env t c hid hc.1 h).1
    -- the ghost step
    obtain ⟨m', hm1, hm2, hm3, hm4, hm5, hcall⟩ :
        ∃ m', decodedMaps env m (c :: cs) = decodedMaps env m' cs ∧
          decoderCallsOk env a b m' cs = true ∧
          (handleChunk env t c).jsonBuffers = m'.JsonBuffers ∧
          (handleChunk env t c).numStreamedTokensByPath = m'.NumStreamedTokensByPath ∧
          (handleChunk env t c).finishedByPath = m'.FinishedByPath ∧
          (isBuildPayload env c = true →
            decoderCallOk a b (decoderInput t c.Content)
              (env.receiveFileToken (decoderInput t c.Content)) = true) := by
      by_cases hbld : isBuildPayload env c = true
      · simp only [decoderCallsOk, hbld, if_true, Bool.and_eq_true] at hdec
        refine ⟨(env.receiveFileToken { m with Content := c.Content }).1, ?_, hdec.2, ?_, ?_, ?_,
          ?_⟩
        · simp only [decodedMaps, hbld, if_true]
        · rw [(hmaps.1 hbld).1, hin]
        · rw [(hmaps.1 hbld).2.1, hin]
        · rw [(hmaps.1 hbld).2.2, hin]
        · intro _; rw [hin]; exact hdec.1
      · have hbld' : isBuildPayload env c = false := by
          cases h : isBuildPayload env c
          · rfl
          · exact absurd h hbld
        simp only [decoderCallsOk, hbld', Bool.false_eq_true, if_false] at hdec
        refine ⟨m, ?_, hdec, ?_, ?_, ?_, fun h => absurd h hbld⟩
        · simp only [decodedMaps, hbld', Bool.false_eq_true, if_false]
        · rw [(hmaps.2 hbld').1, h1]
        · rw [(hmaps.2 hbld').2.1, h2]
        · rw [(hmaps.2 hbld').2.2, h3]
    rw [hm1]
    have hbp' : BuildPhase d a b (handleChunk env t c) :=
      BuildPhase_step env d a b t c hab hfiles hbp hc.1 hc.2 hcall
    have hpan := handleChunk_panic_closed env d t c hid hbp.1 hc.1 hc.2
      (fun h => (decoderCallOk_spec a b _ _ (hcall h)).1)
    by_cases hu : (handleChunk env t c).panicked = true
    · rw [run_of_panicked env cs _ hu]
      refine ⟨hbp', fun h => by rw [hu] at h; exact absurd h (by simp), ?_, ?_,
        fun h => by rw [hu] at h; exact absurd h (by simp)⟩
      · intro k hk
        rw [hm5] at hk
        exact decodedMaps_keeps env a b cs m' hm2 k hk
      · intro _
        rcases hpan hu with h | h
        · rw [hp] at h; exact absurd h (by simp)
        · exact h
    · have hu' : (handleChunk env t c).panicked = false := by
        cases h : (handleChunk env t c).panicked
        · rfl
        · exact absurd h hu
      obtain ⟨i1, i2, i3, i4, i5⟩ := ih (handleChunk env t c) m' (by simp [hr]) (by simp [hq])
        (by simp [hb]) hu' hbp' hm3 hm4 hm5 hcs' hm2
      refine ⟨i1, i2, i3, i4, ?_⟩
      intro hnp h
      apply i5 hnp
      rcases h with h | ⟨c', hc', hs'⟩
      · exact Or.inl (hsfm (Or.inl h))
      · rcases List.mem_cons.mp hc' with h' | h'
        · subst h'; exact Or.inl (hsfm (Or.inr hs'))
        · exact Or.inr ⟨c', h', hs'⟩


theorem isBuildPayload_of_finished (env : Env) (c : OnStreamPlanParams)
    (h : c.State = StateName.STATE_FINISHED) : isBuildPayload env c = false := by
  simp [isBuildPayload, h]

/-- The decoder calls of a stream do not depend on where a Finished chunk
stands among its neighbours. -/
theorem decodedMaps_swap (env : Env) (pre : List OnStreamPlanParams)
    (fin x : OnStreamPlanParams) (m : receiveFileChunkParams)
    (hf : fin.State = StateName.STATE_FINISHED) :
    decodedMaps env m (pre ++ [x, fin]) = decodedMaps env m (pre ++ [fin, x]) := by
  have hfb := isBuildPayload_of_finished env fin hf
  induction pre generalizing m with
  | nil =>
    simp only [List.nil_append, decodedMaps, hfb, Bool.false_eq_true, if_false]
  | cons c pre ih =>
    rw [List.cons_append, List.cons_append, decodedMaps, decodedMaps]
    simp only [ih]

theorem decoderCallsOk_swap (env : Env) (a b : String) (pre : List OnStreamPlanParams)
    (fin x : OnStreamPlanParams) (m : receiveFileChunkParams)
    (hf : fin.State = StateName.STATE_FINISHED) :
    decoderCallsOk env a b m (pre ++ [x, fin]) = decoderCallsOk env a b m (pre ++ [fin, x]) := by
  have hfb := isBuildPayload_of_finished env fin hf
  induction pre generalizing m with
  | nil =>
    simp only [List.nil_append, decoderCallsOk, hfb, Bool.false_eq_true, if_false]
  | cons c pre ih =>
    rw [List.cons_append, List.cons_append, decoderCallsOk, decoderCallsOk]
    simp only [ih]

/-- From a fresh build phase, `done` is closed after a stream exactly when
the decoder calls of the stream have finished both files and the stream has
a Finished chunk. -/
theorem done_iff_decoded (env : Env) (d : PlanDescription) (a b : String)
    (s : Session) (cs : List OnStreamPlanParams)
    (hab : a ≠ b) (hfiles : d.Files = [a, b])
    (hr : s.running = false) (hq : s.queue = []) (hb : s.blocked = false)
    (hp : s.panicked = false) (hid : s.proposalId ≠ "")
    (hd : s.desc = some d) (hnone : s.finishedByPath = [])
    (hff : s.filesFinished = false) (hsf : s.streamFinished = false)
    (hdc : s.doneClosed = false)
    (hcs : ∀ c ∈ cs, c.Err = none ∧
      (c.State = StateName.STATE_DESCRIBING → c.Content = env.STREAM_DESCRIPTION_PHASE))
    (hdec : decoderCallsOk env a b (decoderInput s "") cs = true) :
    ((run env s cs).doneClosed = true ↔
      (mapHas (decodedMaps env (decoderInput s "") cs).FinishedByPath a = true ∧
       mapHas (decodedMaps env (decoderInput s "") cs).FinishedByPath b = true ∧
       ∃ c ∈ cs, c.State = StateName.STATE_FINISHED)) ∧
    ((run env s cs).panicked = false →
      (run env s cs).finishedByPath = (decodedMaps env (decoderInput s "") cs).FinishedByPath ∧
      ((run env s cs).streamFinished = true ↔
        ∃ c ∈ cs, c.State = StateName.STATE_FINISHED)) := by
  have h0 : BuildPhase d a b s := by
    refine ⟨hd, hid, ?_, ?_, ?_⟩
    · intro k hk; rw [hnone] at hk; simp [mapHas] at hk
    · rw [hff, hnone]; simp [mapHas]
    · rw [hdc, hff]; simp
  obtain ⟨i1, i2, i3, i4, i5⟩ := build_run env d a b hab hfiles cs s (decoderInput s "")
    hr hq hb hp h0 rfl rfl rfl hcs hdec
  obtain ⟨_, _, _, j4, j5⟩ := i1
  have hsrc : (run env s cs).streamFinished = true →
      ∃ c ∈ cs, c.State = StateName.STATE_FINISHED := by
    intro h
    rcases run_streamFinished_source env cs s hr hq h with h1 | h1
    · rw [hsf] at h1; exact absurd h1 (by simp)
    · exact h1
  constructor
  · constructor
    · intro h
      obtain ⟨h1, h2⟩ := j5.mp h
      obtain ⟨h3, h4⟩ := j4.mp h2
      exact ⟨i3 a h3, i3 b h4, hsrc h1⟩
    · rintro ⟨h1, h2, h3⟩
      cases hpan : (run env s cs).panicked
      · obtain ⟨_, _, e3⟩ := i2 hpan
        apply j5.mpr
        refine ⟨i5 hpan (Or.inr h3), j4.mpr ?_⟩
        rw [e3]; exact ⟨h1, h2⟩
      · exact i4 hpan
  · intro hpan
    exact ⟨(i2 hpan).2.2, hsrc, fun h => i5 hpan (Or.inr h)⟩


/-- C2 as stated fails: after the identifier `p1` and a description listing
`a` and `b`, an error-free Building chunk whose content the decoder rejects
closes `done` through the error path, although neither `a` nor `b` is marked
finished and no Finished chunk has been handled. -/
theorem completion_without_files_counterexample :
    (run pathEnv (init emptyPlanState)
      [chunk StateName.STATE_REPLYING "p1",
       chunk StateName.STATE_DESCRIBING
         "\x7b\"madePlan\":true,\"files\":[\"a\",\"b\"]\x7d"]).desc = some descAB ∧
    (run pathEnv (init emptyPlanState)
      [chunk StateName.STATE_REPLYING "p1",
       chunk StateName.STATE_DESCRIBING
         "\x7b\"madePlan\":true,\"files\":[\"a\",\"b\"]\x7d"]).doneClosed = false ∧
    (chunk StateName.STATE_BUILDING "?").Err = none ∧
    (run pathEnv (init emptyPlanState)
      [chunk StateName.STATE_REPLYING "p1",
       chunk StateName.STATE_DESCRIBING "\x7b\"madePlan\":true,\"files\":[\"a\",\"b\"]\x7d",
       chunk StateName.STATE_BUILDING "?"]).doneClosed = true ∧
    (run pathEnv (init emptyPlanState)
      [chunk StateName.STATE_REPLYING "p1",
       chunk StateName.STATE_DESCRIBING "\x7b\"madePlan\":true,\"files\":[\"a\",\"b\"]\x7d",
       chunk StateName.STATE_BUILDING "?"]).errors = ["malformed file chunk"] ∧
    mapHas (run pathEnv (init emptyPlanState)
      [chunk StateName.STATE_REPLYING "p1",
       chunk StateName.STATE_DESCRIBING "\x7b\"madePlan\":true,\"files\":[\"a\",\"b\"]\x7d",
       chunk StateName.STATE_BUILDING "?"]).finishedByPath "a" = false ∧
    mapHas (run pathEnv (init emptyPlanState)
      [chunk StateName.STATE_REPLYING "p1",
       chunk StateName.STATE_DESCRIBING "\x7b\"madePlan\":true,\"files\":[\"a\",\"b\"]\x7d",
       chunk StateName.STATE_BUILDING "?"]).finishedByPath "b" = false ∧
    (run pathEnv (init emptyPlanState)
      [chunk StateName.STATE_REPLYING "p1",
       chunk StateName.STATE_DESCRIBING "\x7b\"madePlan\":true,\"files\":[\"a\",\"b\"]\x7d",
       chunk StateName.STATE_BUILDING "?"]).streamFinished = false := by
  decide

/-- C2 (amended): take a live session with a recorded identifier and a
description that made a plan for two distinct files `a` and `b`, in which no
path is finished, neither completion flag is set and `done` is open.  Let
the chunks that follow be error-free, none of them a further description
payload, and let every decoder call they cause report no error, keep the
finished paths, newly mark only `a` or `b`, and return `wroteFile` when it
newly marks a path.  Then `done` is closed after them exactly when the
decoder calls of the sequence have marked both `a` and `b` finished and the
sequence has a Finished chunk.  As long as nothing panicked,
`finishedByPath` is what those decoder calls produced and `streamFinished`
says that a Finished chunk was handled.  And `done` ends the same when the
last two chunks, a Finished chunk and another one, arrive in the other
order. -/
theorem completion_iff_both_finished (env : Env) (d : PlanDescription) (a b : String)
    (s : Session) (cs : List OnStreamPlanParams)
    (hab : a ≠ b) (_hmade : d.MadePlan = true) (hfiles : d.Files = [a, b])
    (hr : s.running = false) (hq : s.queue = []) (hb : s.blocked = false)
    (hp : s.panicked = false) (hid : s.proposalId ≠ "")
    (hd : s.desc = some d) (hnone : s.finishedByPath = [])
    (hff : s.filesFinished = false) (hsf : s.streamFinished = false)
    (hdc : s.doneClosed = false)
    (hcs : ∀ c ∈ cs, c.Err = none ∧
      (c.State = StateName.STATE_DESCRIBING → c.Content = env.STREAM_DESCRIPTION_PHASE))
    (hdec : decoderCallsOk env a b (decoderInput s "") cs = true) :
    ((run env s cs).doneClosed = true ↔
      (mapHas (decodedMaps env (decoderInput s "") cs).FinishedByPath a = true ∧
       mapHas (decodedMaps env (decoderInput s "") cs).FinishedByPath b = true ∧
       ∃ c ∈ cs, c.State = StateName.STATE_FINISHED)) ∧
    ((run env s cs).panicked = false →
      (run env s cs).finishedByPath = (decodedMaps env (decoderInput s "") cs).FinishedByPath ∧
      ((run env s cs).streamFinished = true ↔
        ∃ c ∈ cs, c.State = StateName.STATE_FINISHED)) ∧
    (∀ (pre : List OnStreamPlanParams) (fin x : OnStreamPlanParams),
      cs = pre ++ [fin, x] → fin.State = StateName.STATE_FINISHED →
      (run env s (pre ++ [x, fin])).doneClosed = (run env s (pre ++ [fin, x])).doneClosed) := by
  obtain ⟨k1, k2⟩ := done_iff_decoded env d a b s cs hab hfiles hr hq hb hp hid hd hnone hff
    hsf hdc hcs hdec
  refine ⟨k1, k2, ?_⟩
  intro pre fin x hcs' hfin
  subst hcs'
  have hcs2 : ∀ c ∈ pre ++ [x, fin], c.Err = none ∧
      (c.State = StateName.STATE_DESCRIBING → c.Content = env.STREAM_DESCRIPTION_PHASE) := by
    intro c hc
    apply hcs c
    simp only [List.mem_append, List.mem_cons, List.mem_singleton, List.not_mem_nil,
      or_false] at hc ⊢
    rcases hc with h | h | h
    · exact Or.inl h
    · exact Or.inr (Or.inr h)
    · exact Or.inr (Or.inl h)
  have hdec2 : decoderCallsOk env a b (decoderInput s "") (pre ++ [x, fin]) = true := by
    rw [decoderCallsOk_swap env a b pre fin x _ hfin]; exact hdec
  obtain ⟨l1, _⟩ := done_iff_decoded env d a b s (pre ++ [x, fin]) hab hfiles hr hq hb hp hid
    hd hnone hff hsf hdc hcs2 hdec2
  rw [decodedMaps_swap env pre fin x _ hfin] at l1
  have hex : (∃ c ∈ pre ++ [x, fin], c.State = StateName.STATE_FINISHED) ↔
      (∃ c ∈ pre ++ [fin, x], c.State = StateName.STATE_FINISHED) :=
    ⟨fun _ => ⟨fin, by simp, hfin⟩, fun _ => ⟨fin, by simp, hfin⟩⟩
  rw [hex] at l1
  rw [Bool.eq_iff_iff, l1, k1]

/-- C2 (amended) with the decoder `pathDecoder`: after the identifier `p1`
and the description of `a` and `b`, the chunks Building `a`, Finished,
Building `b` close `done`. -/
theorem completion_iff_both_finished_witness :
    decoderCallsOk pathEnv "a" "b"
      (decoderInput (run pathEnv (init emptyPlanState)
        [chunk StateName.STATE_REPLYING "p1",
         chunk StateName.STATE_DESCRIBING
           "\x7b\"madePlan\":true,\"files\":[\"a\",\"b\"]\x7d"]) "")
      [chunk StateName.STATE_BUILDING "a", chunk StateName.STATE_FINISHED "",
       chunk StateName.STATE_BUILDING "b"] = true ∧
    (run pathEnv
      (run pathEnv (init emptyPlanState)
        [chunk StateName.STATE_REPLYING "p1",
         chunk StateName.STATE_DESCRIBING
           "\x7b\"madePlan\":true,\"files\":[\"a\",\"b\"]\x7d"])
      [chunk StateName.STATE_BUILDING "a", chunk StateName.STATE_FINISHED "",
       chunk StateName.STATE_BUILDING "b"]).doneClosed = true :=
  ⟨by decide,
   ((completion_iff_both_finished pathEnv descAB "a" "b" _ _ (by decide) rfl rfl
      (by decide) (by decide) (by decide) (by decide) (by decide) (by decide) (by decide)
      (by decide) (by decide) (by decide) (by decide) (by decide)).1).mpr
      ⟨by decide, by decide, chunk StateName.STATE_FINISHED "", by decide, rfl⟩⟩

/-! ## C3: the identifier is written before the reply starts -/

theorem head?_of_grow {α : Type} (l l' : List α) (p : α) (h : l <+: l')
    (hp : l.head? = some p) : l'.head? = some p := by
  obtain ⟨t, rfl⟩ := h
  cases l with
  | nil => simp at hp
  | cons a l => simpa using hp

theorem IdRecorded_step (env : Env) (s : Session) (c : OnStreamPlanParams)
    (h : IdRecorded env s) : IdRecorded env (handleChunk env s c) := by
  by_cases hid : s.proposalId = ""
  · obtain ⟨hr, hs, hc⟩ := h.1 hid
    apply handleChunk_cases (IdRecorded env)
    · intro e _; exact ⟨fun _ => by simp [hr, hs, hc], fun h' => absurd (by simpa using hid) h'⟩
    · intro _ _ _; exact ⟨fun _ => by simp [hr, hs, hc], fun h' => absurd (by simpa using hid) h'⟩
    · intro _ _ hne t ht
      have h1 : t.1.proposalId = c.Content := by rw [ht]; simp
      have h2 : t.1.setPlanStateCalls = [t.1.planState] := by rw [ht]; simp [hc]
      have h3 : t.1.planState.ProposalId = c.Content := by rw [ht]; simp
      have h4 : env.SetPlanState 0 t.1.planState = none → t.1.planState ∈ t.1.persisted := by
        intro h0
        rw [ht, callSetPlanState_persisted]
        rw [ht] at h0
        simp only [callSetPlanState_planState] at h0 ⊢
        simp [hc, h0]
      have key : IdRecorded env t.1 :=
        ⟨fun h' => absurd (h1 ▸ h') hne,
         fun _ => ⟨t.1.planState, by rw [h2]; rfl, by rw [h3, h1], h4⟩⟩
      split
      · refine ⟨fun h' => absurd (by simpa [h1] using h') hne, fun _ => ?_⟩
        obtain ⟨p, hp1, hp2, hp3⟩ := key.2 (by rw [h1]; exact hne)
        exact ⟨p, by simpa using hp1, by simpa using hp2, by simpa using hp3⟩
      · exact key
    · intro _ h'; exact absurd hid h'
    · intro _ h'; exact absurd hid h'
    · intro _ h'; exact absurd hid h'
    · intro _ h'; exact absurd hid h'
    · intro _ h'; exact absurd hid h'
    · intro _ h'; exact absurd hid h'
    · intro _ h'; exact absurd hid h'
  · obtain ⟨p, hp1, hp2, hp3⟩ := h.2 hid
    have e1 := handleChunk_proposalId env s c hid
    refine ⟨fun h' => absurd (e1 ▸ h') hid, fun _ => ⟨p, ?_, by rw [e1]; exact hp2, ?_⟩⟩
    · exact head?_of_grow _ _ p (handleChunk_calls_grow env s c) hp1
    · intro h0
      exact (handleChunk_persisted_grow env s c).subset (hp3 h0)

theorem IdRecorded_run (env : Env) (planState : PlanState) (cs : List OnStreamPlanParams) :
    IdRecorded env (run env (init planState) cs) := by
  apply run_induction (IdRecorded env) env
    (fun s c _ _ _ h => IdRecorded_step env s c h) cs (init planState) rfl rfl
  exact ⟨fun _ => ⟨rfl, rfl, rfl⟩, fun h => absurd rfl h⟩

/-- C3 as stated fails when the store rejects the write: after the identifier
chunk `p1` and a Replying chunk `Hello` the reply is `Hello` and the reply has
been revealed, yet no plan state has been persisted. -/
theorem id_not_persisted_counterexample :
    (chunk StateName.STATE_REPLYING "p1").Err = none ∧
    (chunk StateName.STATE_REPLYING "p1").Content ≠ "" ∧
    (run failingStoreEnv (init emptyPlanState)
      [chunk StateName.STATE_REPLYING "p1", chunk StateName.STATE_REPLYING "Hello"]).reply
      = "Hello" ∧
    (run failingStoreEnv (init emptyPlanState)
      [chunk StateName.STATE_REPLYING "p1",
       chunk StateName.STATE_REPLYING "Hello"]).replyStarted = true ∧
    (run failingStoreEnv (init emptyPlanState)
      [chunk StateName.STATE_REPLYING "p1", chunk StateName.STATE_REPLYING "Hello"]).persisted
      = [] := by
  decide

/-- C3 (amended): the identifier chunk calls `SetPlanState` with `ProposalId`
equal to its content (and with the root id defaulting to it) before anything
is appended or revealed, and the plan state is persisted when that call
returns no error; in every state reached after it the recorded identifier is
that content and that call heads the list of `SetPlanState` calls; and in
every reachable state whose reply is non-empty or whose `replyStarted` is
set, the first `SetPlanState` call carried the recorded identifier, which is
persisted when the call returned no error. -/
theorem id_saved_before_reply (env : Env) (planState : PlanState) (c : OnStreamPlanParams)
    (he : c.Err = none) (hne : c.Content ≠ "") :
    (handleStream env (init planState) c).setPlanStateCalls =
      [(idPlanState planState c.Content)] ∧
    (handleStream env (init planState) c).proposalId = c.Content ∧
    (handleStream env (init planState) c).reply = "" ∧
    (handleStream env (init planState) c).replyStarted = false ∧
    (env.SetPlanState 0 (idPlanState planState c.Content) = none →
      (handleStream env (init planState) c).persisted =
        [(idPlanState planState c.Content)]) ∧
    (∀ cs : List OnStreamPlanParams,
      (run env (init planState) (c :: cs)).proposalId = c.Content ∧
      (run env (init planState) (c :: cs)).setPlanStateCalls.head? =
        some (idPlanState planState c.Content) ∧
      (env.SetPlanState 0 (idPlanState planState c.Content) = none →
        (idPlanState planState c.Content)
          ∈ (run env (init planState) (c :: cs)).persisted)) ∧
    (∀ cs : List OnStreamPlanParams,
      ((run env (init planState) cs).reply ≠ "" ∨
        (run env (init planState) cs).replyStarted = true) →
      (run env (init planState) cs).proposalId ≠ "" ∧
      ∃ p, (run env (init planState) cs).setPlanStateCalls.head? = some p ∧
        p.ProposalId = (run env (init planState) cs).proposalId ∧
        (env.SetPlanState 0 p = none → p ∈ (run env (init planState) cs).persisted)) := by
  have hstream : handleStream env (init planState) c = handleChunk env (init planState) c :=
    handleStream_idle env _ c rfl rfl
  have h1 := handleChunk_of_id env (init planState) c rfl he hne
  have hcalls : (handleChunk env (init planState) c).setPlanStateCalls =
      [(idPlanState planState c.Content)] := by
    rw [h1.2.2.2.1]; simp [init, idPlanState]
  have hpers : env.SetPlanState 0 (idPlanState planState c.Content) = none →
      (handleChunk env (init planState) c).persisted =
        [(idPlanState planState c.Content)] := by
    intro h0
    simp only [handleChunk, he, hne, init, if_true, if_false, callSetPlanState_snd]
    simp only [idPlanState] at h0
    simp [h0, callSetPlanState_persisted, idPlanState]
  rw [hstream]
  refine ⟨hcalls, h1.1, by rw [h1.2.1]; rfl, by rw [h1.2.2.1]; rfl, hpers, ?_, ?_⟩
  · intro cs
    rw [run_cons_init]
    apply run_induction (fun s => s.proposalId = c.Content ∧
      s.setPlanStateCalls.head? = some (idPlanState planState c.Content) ∧
      (env.SetPlanState 0 (idPlanState planState c.Content) = none →
        (idPlanState planState c.Content) ∈ s.persisted)) env
    · intro s c' _ _ _ ⟨ha, hb, hc⟩
      refine ⟨?_, ?_, ?_⟩
      · rw [handleChunk_proposalId env s c' (by rw [ha]; exact hne)]; exact ha
      · exact head?_of_grow _ _ _ (handleChunk_calls_grow env s c') hb
      · intro h0; exact (handleChunk_persisted_grow env s c').subset (hc h0)
    · simp [init]
    · simp [init]
    · refine ⟨h1.1, by rw [hcalls]; rfl, fun h0 => by rw [hpers h0]; simp⟩
  · intro cs hrs
    have hinv := IdRecorded_run env planState cs
    have hid : (run env (init planState) cs).proposalId ≠ "" := by
      intro h0
      obtain ⟨ha, hb, _⟩ := hinv.1 h0
      rcases hrs with h | h
      · exact h ha
      · rw [hb] at h; exact Bool.noConfusion h
    exact ⟨hid, hinv.2 hid⟩

/-- C3 at a concrete stream: identifier `p1` with a store that accepts the
write. -/
theorem id_saved_before_reply_witness :
    (chunk StateName.STATE_REPLYING "p1").Err = none ∧
    (chunk StateName.STATE_REPLYING "p1").Content ≠ "" ∧
    (handleStream sampleEnv (init emptyPlanState)
      (chunk StateName.STATE_REPLYING "p1")).setPlanStateCalls =
      [(idPlanState emptyPlanState (chunk StateName.STATE_REPLYING "p1").Content)] :=
  ⟨rfl, by decide,
    (id_saved_before_reply sampleEnv emptyPlanState (chunk StateName.STATE_REPLYING "p1")
      rfl (by decide)).1⟩

/-! ## C4: an empty first chunk -/

/-- C4: in a reachable session with no identifier recorded, an error-free
chunk with empty content takes the error path with the message
`proposal id not sent in first chunk` (key watcher cancelled, `done` closed;
the close panics when `done` was closed before) and leaves the session
variables as they were: the identifier stays empty,
`SetPlanState` is not called and nothing is persisted, the reply is
unchanged, `replyStarted` stays false, and the description, the two
completion flags and the per-file maps are untouched. -/
theorem empty_first_chunk_is_fatal (env : Env) (planState : PlanState)
    (cs : List OnStreamPlanParams) (s : Session) (c : OnStreamPlanParams)
    (hs : s = run env (init planState) cs)
    (hid : s.proposalId = "") (he : c.Err = none) (hc : c.Content = "") :
    (handleStream env s c).errors = s.errors ++ ["proposal id not sent in first chunk"] ∧
    (handleStream env s c).keywatchCancelled = true ∧
    (handleStream env s c).doneClosed = true ∧
    (handleStream env s c).panicked = (s.panicked || s.doneClosed) ∧
    (handleStream env s c).proposalId = "" ∧
    (handleStream env s c).setPlanStateCalls = s.setPlanStateCalls ∧
    (handleStream env s c).persisted = s.persisted ∧
    (handleStream env s c).planState = s.planState ∧
    (handleStream env s c).rootId = s.rootId ∧
    (handleStream env s c).reply = s.reply ∧
    (handleStream env s c).replyStarted = false ∧
    (handleStream env s c).desc = s.desc ∧
    (handleStream env s c).streamFinished = s.streamFinished ∧
    (handleStream env s c).filesFinished = s.filesFinished ∧
    (handleStream env s c).finishedByPath = s.finishedByPath ∧
    (handleStream env s c).jsonBuffers = s.jsonBuffers ∧
    (handleStream env s c).numStreamedTokensByPath = s.numStreamedTokensByPath := by
  have hidle := run_idle env cs (init planState) rfl rfl
  rw [← hs] at hidle
  have hinv := IdRecorded_run env planState cs
  rw [← hs] at hinv
  rw [handleStream_idle env s c hidle.1 hidle.2, handleChunk_of_empty env s c he hid hc]
  simp [hid, (hinv.1 hid).2.1]

/-- C4 at the first call of a session: a Replying chunk with empty content. -/
theorem empty_first_chunk_is_fatal_witness :
    (init emptyPlanState).proposalId = "" ∧
    (handleStream sampleEnv (init emptyPlanState) (chunk StateName.STATE_REPLYING "")).errors
      = (init emptyPlanState).errors ++ ["proposal id not sent in first chunk"] :=
  ⟨rfl, (empty_first_chunk_is_fatal sampleEnv emptyPlanState [] (init emptyPlanState)
      (chunk StateName.STATE_REPLYING "") rfl rfl rfl rfl).1⟩

/-! ## C5: a second fatal error -/

/-- C5 at two fatal errors: the first error chunk closes `done` and the call
returns; the second one calls `close(done)` on the closed channel, which
panics.  The same happens to an error chunk that arrives after completion:
identifier `p1`, a description without files and Finished close `done`, and
the error chunk that follows panics. -/
theorem second_fatal_error_panics :
    (run sampleEnv (init emptyPlanState) [errChunk "e1"]).doneClosed = true ∧
    (run sampleEnv (init emptyPlanState) [errChunk "e1"]).panicked = false ∧
    (run sampleEnv (init emptyPlanState) [errChunk "e1", errChunk "e2"]).panicked = true ∧
    (run sampleEnv (init emptyPlanState) [errChunk "e1", errChunk "e2"]).errors
      = ["e1", "e2"] ∧
    (run sampleEnv (init emptyPlanState)
      [chunk StateName.STATE_REPLYING "p1",
       chunk StateName.STATE_DESCRIBING "\x7b\"madePlan\":false,\"files\":[]\x7d",
       chunk StateName.STATE_FINISHED ""]).doneClosed = true ∧
    (run sampleEnv (init emptyPlanState)
      [chunk StateName.STATE_REPLYING "p1",
       chunk StateName.STATE_DESCRIBING "\x7b\"madePlan\":false,\"files\":[]\x7d",
       chunk StateName.STATE_FINISHED ""]).panicked = false ∧
    (run sampleEnv (init emptyPlanState)
      [chunk StateName.STATE_REPLYING "p1",
       chunk StateName.STATE_DESCRIBING "\x7b\"madePlan\":false,\"files\":[]\x7d",
       chunk StateName.STATE_FINISHED "", errChunk "e1"]).panicked = true := by
  decide

/-! ## C6: a description that fails to parse -/

/-- C7 as stated fails: after the identifier `p1`, `Hello`, ` world` and a
Finished chunk, with no description received, no error has been reported,
the key watcher is not cancelled and `done` is still open. -/
theorem finished_without_description_counterexample :
    (run sampleEnv (init emptyPlanState)
      [chunk StateName.STATE_REPLYING "p1", chunk StateName.STATE_REPLYING "Hello",
       chunk StateName.STATE_REPLYING " world", chunk StateName.STATE_FINISHED ""]).errors = [] ∧
    (run sampleEnv (init emptyPlanState)
      [chunk StateName.STATE_REPLYING "p1", chunk StateName.STATE_REPLYING "Hello",
       chunk StateName.STATE_REPLYING " world",
       chunk StateName.STATE_FINISHED ""]).keywatchCancelled = false ∧
    (run sampleEnv (init emptyPlanState)
      [chunk StateName.STATE_REPLYING "p1", chunk StateName.STATE_REPLYING "Hello",
       chunk StateName.STATE_REPLYING " world",
       chunk StateName.STATE_FINISHED ""]).doneClosed = false ∧
    (run sampleEnv (init emptyPlanState)
      [chunk StateName.STATE_REPLYING "p1", chunk StateName.STATE_REPLYING "Hello",
       chunk StateName.STATE_REPLYING " world",
       chunk StateName.STATE_FINISHED ""]).desc = none := by
  decide

/-- C7 (amended): for the stream identifier `p1`, `Hello`, ` world`, Finished,
with no description received and the identifier's plan-state write accepted,
no error path is taken: the reply is `Hello world`, `streamFinished` is set,
`filesFinished` is not, no error is reported, the key watcher is not
cancelled and `done` stays open, so the session remains incomplete. -/
theorem finished_without_description_stays_open (env : Env) (planState : PlanState)
    (st : StateName) (s : Session)
    (hok : env.SetPlanState 0 (idPlanState planState "p1") = none)
    (hs : s = run env (init planState)
      [{ State := st, Err := none, Content := "p1" }, chunk StateName.STATE_REPLYING "Hello",
       chunk StateName.STATE_REPLYING " world", chunk StateName.STATE_FINISHED ""]) :
    s.reply = "Hello world" ∧ s.streamFinished = true ∧ s.filesFinished = false ∧
    s.desc = none ∧ s.errors = [] ∧ s.keywatchCancelled = false ∧ s.doneClosed = false ∧
    s.panicked = false := by
  subst hs
  simp only [idPlanState] at hok
  have e1 : "p1" ≠ "" := by decide
  simp [run, handleStream, drainQueue, handleChunk, init, chunk, callSetPlanState, hok,
    revealReply, e1]

/-- C7 (amended) with the sample collaborators. -/
theorem finished_without_description_stays_open_witness :
    sampleEnv.SetPlanState 0 (idPlanState emptyPlanState "p1") = none ∧
    (run sampleEnv (init emptyPlanState)
      [{ State := StateName.STATE_REPLYING, Err := none, Content := "p1" },
       chunk StateName.STATE_REPLYING "Hello",
       chunk StateName.STATE_REPLYING " world", chunk StateName.STATE_FINISHED ""]).reply
      = "Hello world" :=
  ⟨rfl, (finished_without_description_stays_open sampleEnv emptyPlanState
    StateName.STATE_REPLYING _ rfl rfl).1⟩

/-! ## C8: a description without files -/

/-- C8 as stated fails when the plan-state write of the description is
rejected: the chunk is parsed into a description without files, and
`filesFinished` is still false after it. -/
theorem rejected_write_keeps_files_unfinished_counterexample :
    secondWriteFailsEnv.jsonUnmarshal "\x7b\"madePlan\":false,\"files\":[]\x7d"
      (run secondWriteFailsEnv (init emptyPlanState)
        [chunk StateName.STATE_REPLYING "p1"]).desc = (some descNone, none) ∧
    descNone.Files = [] ∧
    (run secondWriteFailsEnv (init emptyPlanState)
      [chunk StateName.STATE_REPLYING "p1",
       chunk StateName.STATE_DESCRIBING
         "\x7b\"madePlan\":false,\"files\":[]\x7d"]).filesFinished = false ∧
    (run secondWriteFailsEnv (init emptyPlanState)
      [chunk StateName.STATE_REPLYING "p1",
       chunk StateName.STATE_DESCRIBING
         "\x7b\"madePlan\":false,\"files\":[]\x7d"]).panicked = false := by
  decide

/-- C8 (amended): when a Describing chunk that is not the phase marker is
decoded into a description with an empty file list and the `SetPlanState`
call that follows returns no error, `filesFinished` is true after that
chunk, and a following error-free Finished chunk sets `streamFinished` and
closes `done`; when the description has `MadePlan` and a non-empty file
list, the chunk leaves `filesFinished` as it was. -/
theorem no_files_description_finishes_files (env : Env) (s : Session)
    (c : OnStreamPlanParams) (d : PlanDescription)
    (hr : s.running = false) (hq : s.queue = []) (hid : s.proposalId ≠ "")
    (he : c.Err = none) (hst : c.State = StateName.STATE_DESCRIBING)
    (hm : c.Content ≠ env.STREAM_DESCRIPTION_PHASE)
    (hparse : env.jsonUnmarshal c.Content s.desc = (some d, none)) :
    (d.Files = [] →
      env.SetPlanState s.setPlanStateCalls.length
        { s.planState with Description := some d } = none →
      (handleStream env s c).filesFinished = true ∧
      ∀ f : OnStreamPlanParams, f.Err = none → f.State = StateName.STATE_FINISHED →
        (handleStream env (handleStream env s c) f).streamFinished = true ∧
        (handleStream env (handleStream env s c) f).doneClosed = true) ∧
    (d.MadePlan = true → d.Files ≠ [] →
      (handleStream env s c).filesFinished = s.filesFinished) := by
  rw [handleStream_idle env s c hr hq]
  have hff : (handleChunk env s c).filesFinished =
      if env.SetPlanState s.setPlanStateCalls.length
          { s.planState with Description := some d } = none
      then (if d.MadePlan && decide (d.Files.length > 0) then s.filesFinished else true)
      else s.filesFinished := by
    rw [handleChunk_of_describe env s c hid he hst hm]
    have := describePayload_filesFinished env (revealReply { s with state := some c.State })
      c.Content d (by simpa using hparse)
    simpa using this
  constructor
  · intro hfiles hok
    have h1 : (handleChunk env s c).filesFinished = true := by
      rw [hff]; simp [hok, hfiles]
    refine ⟨h1, ?_⟩
    intro f hfe hfs
    have hid1 : (handleChunk env s c).proposalId ≠ "" := by
      rw [handleChunk_proposalId env s c hid]; exact hid
    rw [handleStream_idle env _ f (by simp [hr]) (by simp [hq])]
    have := handleChunk_of_finished env (handleChunk env s c) f hid1 hfe hfs
    exact ⟨this.1, this.2.1 h1⟩
  · intro hmade hfiles
    rw [hff]
    have hlen : d.Files.length > 0 := List.length_pos.mpr hfiles
    simp [hmade, hlen]

/-- C8 (amended) at the session that has handled the identifier `p1`, with a
description that made no plan. -/
theorem no_files_description_finishes_files_witness :
    sampleEnv.jsonUnmarshal
      (chunk StateName.STATE_DESCRIBING "\x7b\"madePlan\":false,\"files\":[]\x7d").Content
      (run sampleEnv (init emptyPlanState) [chunk StateName.STATE_REPLYING "p1"]).desc
      = (some descNone, none) ∧
    (handleStream sampleEnv
      (run sampleEnv (init emptyPlanState) [chunk StateName.STATE_REPLYING "p1"])
      (chunk StateName.STATE_DESCRIBING
        "\x7b\"madePlan\":false,\"files\":[]\x7d")).filesFinished = true :=
  ⟨by decide,
   ((no_files_description_finishes_files sampleEnv
      (run sampleEnv (init emptyPlanState) [chunk StateName.STATE_REPLYING "p1"])
      (chunk StateName.STATE_DESCRIBING "\x7b\"madePlan\":false,\"files\":[]\x7d")
      descNone (by decide) (by decide) (by decide) rfl rfl (by decide) (by decide)).1
      rfl rfl).1⟩

/-! ## C9: chunks after Finished -/

/-- C9 as stated fails: after the identifier `p1` and a Finished chunk the
reply is empty and `streamFinished` is set, and a later Replying chunk `x`
still changes the reply. -/
theorem reply_changes_after_finished_counterexample :
    (run sampleEnv (init emptyPlanState)
      [chunk StateName.STATE_REPLYING "p1", chunk StateName.STATE_FINISHED ""]).streamFinished
      = true ∧
    (run sampleEnv (init emptyPlanState)
      [chunk StateName.STATE_REPLYING "p1", chunk StateName.STATE_FINISHED ""]).reply = "" ∧
    (run sampleEnv (init emptyPlanState)
      [chunk StateName.STATE_REPLYING "p1", chunk StateName.STATE_FINISHED "",
       chunk StateName.STATE_REPLYING "x"]).reply = "x" := by
  decide

/-- C9 (amended): a Finished chunk handled in a session with a recorded
identifier sets `streamFinished`, and the flag stays set after every later
chunk; the tag of a later chunk is still obeyed, so a later error-free
Replying or Revising chunk appends its content to the reply. -/
theorem stream_finished_is_latched (env : Env) (s : Session) (f : OnStreamPlanParams)
    (hr : s.running = false) (hq : s.queue = []) (hid : s.proposalId ≠ "")
    (he : f.Err = none) (hf : f.State = StateName.STATE_FINISHED) :
    (handleStream env s f).streamFinished = true ∧
    (∀ cs : List OnStreamPlanParams,
      (run env (handleStream env s f) cs).streamFinished = true) ∧
    (∀ (cs : List OnStreamPlanParams) (c : OnStreamPlanParams), c.Err = none →
      (c.State = StateName.STATE_REPLYING ∨ c.State = StateName.STATE_REVISING) →
      (handleStream env (run env (handleStream env s f) cs) c).streamFinished = true ∧
      (handleStream env (run env (handleStream env s f) cs) c).reply
        = (run env (handleStream env s f) cs).reply ++ c.Content) := by
  rw [handleStream_idle env s f hr hq]
  have h1 : (handleChunk env s f).streamFinished = true := by
    simp only [handleChunk, he, hid, hf, if_false]
    split <;> simp
  have hr1 : (handleChunk env s f).running = false := by simp [hr]
  have hq1 : (handleChunk env s f).queue = [] := by simp [hq]
  have hid1 : (handleChunk env s f).proposalId ≠ "" := by
    rw [handleChunk_proposalId env s f hid]; exact hid
  have hrun : ∀ cs : List OnStreamPlanParams,
      (run env (handleChunk env s f) cs).streamFinished = true := fun cs =>
    run_induction (fun t => t.streamFinished = true) env
      (fun t c _ _ _ ht => handleChunk_streamFinished env t c ht) cs _ hr1 hq1 h1
  refine ⟨h1, hrun, ?_⟩
  intro cs c hce hcs
  have hidle := run_idle env cs (handleChunk env s f) hr1 hq1
  rw [handleStream_idle env _ c hidle.1 hidle.2]
  have hid2 : (run env (handleChunk env s f) cs).proposalId ≠ "" := by
    rw [run_proposalId env cs _ hr1 hq1 hid1]; exact hid1
  exact ⟨handleChunk_streamFinished env _ c (hrun cs),
    (handleChunk_reply_of_replying env _ c hid2 hce hcs).1⟩

/-- C9 (amended) at the session that has handled the identifier `p1`. -/
theorem stream_finished_is_latched_witness :
    (run sampleEnv (init emptyPlanState) [chunk StateName.STATE_REPLYING "p1"]).proposalId
      ≠ "" ∧
    (handleStream sampleEnv
      (run sampleEnv (init emptyPlanState) [chunk StateName.STATE_REPLYING "p1"])
      (chunk StateName.STATE_FINISHED "")).streamFinished = true :=
  ⟨by decide, (stream_finished_is_latched sampleEnv
    (run sampleEnv (init emptyPlanState) [chunk StateName.STATE_REPLYING "p1"])
    (chunk StateName.STATE_FINISHED "") (by decide) (by decide) (by decide) rfl rfl).1⟩

/-! ## C10: the `running` guard -/

/-- C10: in every state reached from the initial session by any sequence of
`handleStream` calls, `running` is false, the channel `queue` is empty and no
send is blocked, so the next call runs the body itself and leaves the queue
empty again; the same holds along `run`. -/
theorem running_guard_never_set (env : Env) (planState : PlanState)
    (cs : List OnStreamPlanParams) (params : OnStreamPlanParams) :
    (cs.foldl (handleStream env) (init planState)).running = false ∧
    (cs.foldl (handleStream env) (init planState)).queue = [] ∧
    (cs.foldl (handleStream env) (init planState)).blocked = false ∧
    handleStream env (cs.foldl (handleStream env) (init planState)) params
      = handleChunk env (cs.foldl (handleStream env) (init planState)) params ∧
    (handleStream env (cs.foldl (handleStream env) (init planState)) params).queue = [] ∧
    (run env (init planState) cs).running = false ∧
    (run env (init planState) cs).queue = [] := by
  have h := foldl_idle env cs (init planState) rfl rfl rfl
  have h2 := run_idle env cs (init planState) rfl rfl
  refine ⟨h.1, h.2.1, h.2.2, handleStream_idle env _ params h.1 h.2.1, ?_, h2.1, h2.2⟩
  rw [handleStream_idle env _ params h.1 h.2.1, handleChunk_queue]
  exact h.2.1

end Plandex
